import Mathlib

/-!
Verification of the sanctions-screening engine (`python/screener.py`,
`python/xml_utils.py`, `python/config_manager.py`, `python/api/server.py`)
as a shallow embedding.

Strings are modelled as lists of Unicode code points (`UStr := List Nat`),
mirroring Python's `str` as a sequence of code points.  Python floats are
modelled as exact rationals (`Q`); every score computed by the screener is a
small rational, and no claim in scope sits at a floating-point rounding
boundary.  The Unicode character tables consulted by `unicodedata` and `re`
(category tests, NFD decomposition, case mapping, whitespace) are modelled
by explicit code-point tables covering the script ranges the program
special-cases (ASCII, Latin-1, combining marks U+0300–U+036F, Cyrillic,
Arabic, CJK) together with the format/control code points relevant to the
sanitizer and the validator.
-/

/-- A Python string: a list of Unicode code points. -/
abbrev UStr := List Nat

/-- Interval test on code points. -/
def betw (lo hi c : Nat) : Bool := decide (lo ≤ c ∧ c ≤ hi)

/-- Exact rational scores.  Python's float arithmetic is modelled exactly;
values are kept normalized (gcd-reduced, positive denominator) so that
structural equality coincides with value equality, and every operation
reduces in the kernel. -/
structure Q where
  num : Int
  den : Nat
deriving DecidableEq

/-- Build a normalized fraction from an integer numerator and a natural
denominator (0 denominators do not occur in this development; they map to
0). -/
def Q.mk' (n : Int) (d : Nat) : Q :=
  if d = 0 then ⟨0, 1⟩
  else
    let g := n.gcd (d : Int)
    if g = 0 then ⟨0, 1⟩
    else ⟨n / (g : Int), d / g⟩

/-- Embed a natural number. -/
def Q.ofNat (n : Nat) : Q := ⟨(n : Int), 1⟩

instance (n : Nat) : OfNat Q n := ⟨Q.ofNat n⟩

/-- Addition. -/
def Q.add (a b : Q) : Q :=
  Q.mk' (a.num * (b.den : Int) + b.num * (a.den : Int)) (a.den * b.den)

instance : Add Q := ⟨Q.add⟩

/-- Subtraction. -/
def Q.sub (a b : Q) : Q :=
  Q.mk' (a.num * (b.den : Int) - b.num * (a.den : Int)) (a.den * b.den)

instance : Sub Q := ⟨Q.sub⟩

/-- Multiplication. -/
def Q.mul (a b : Q) : Q := Q.mk' (a.num * b.num) (a.den * b.den)

instance : Mul Q := ⟨Q.mul⟩

/-- Order, by cross multiplication (denominators are non-negative). -/
def Q.le (a b : Q) : Prop := a.num * (b.den : Int) ≤ b.num * (a.den : Int)

instance : LE Q := ⟨Q.le⟩

instance (a b : Q) : Decidable (a ≤ b) :=
  inferInstanceAs (Decidable (a.num * (b.den : Int) ≤ b.num * (a.den : Int)))

/-- Strict order. -/
def Q.lt (a b : Q) : Prop := a.num * (b.den : Int) < b.num * (a.den : Int)

instance : LT Q := ⟨Q.lt⟩

instance (a b : Q) : Decidable (a < b) :=
  inferInstanceAs (Decidable (a.num * (b.den : Int) < b.num * (a.den : Int)))

/-- Python `max` (returns the first argument on ties; ties are identical
normalized values here). -/
def Q.maxQ (a b : Q) : Q := if a < b then b else a

/-- Python `min`. -/
def Q.minQ (a b : Q) : Q := if b < a then b else a

/-- Floor, for `int()` of a non-negative value. -/
def Q.floor (a : Q) : Int := Int.fdiv a.num (a.den : Int)

/-- Python `\s` / `str.isspace`: ASCII whitespace, the C0 information
separators, NEL, and the Unicode space/line/paragraph separators.  Note that
U+200B/U+200C/U+200D/U+FEFF are *not* whitespace in Python. -/
def isSpaceChar (c : Nat) : Bool :=
  c == 0x20 || betw 0x9 0xD c || betw 0x1C 0x1F c || c == 0x85 || c == 0xA0 ||
  c == 0x1680 || betw 0x2000 0x200A c || c == 0x2028 || c == 0x2029 ||
  c == 0x202F || c == 0x205F || c == 0x3000

/-- ASCII decimal digits (the only digits appearing in this development). -/
def isDigitChar (c : Nat) : Bool := betw 0x30 0x39 c

/-- Unicode letters, restricted to the ranges this program distinguishes:
ASCII letters, Latin-1 letters (U+00C0–U+00FF minus the two operators
U+00D7 and U+00F7), Cyrillic U+0400–U+04FF, a representative Arabic letter
range U+0620–U+064A, and CJK Unified Ideographs U+4E00–U+9FFF. -/
def isLetterChar (c : Nat) : Bool :=
  betw 0x41 0x5A c || betw 0x61 0x7A c ||
  (betw 0xC0 0xFF c && !(c == 0xD7) && !(c == 0xF7)) ||
  betw 0x400 0x4FF c || betw 0x620 0x64A c || betw 0x4E00 0x9FFF c

/-- Python regex `\w`: letters, digits, or underscore. -/
def isWordChar (c : Nat) : Bool := isLetterChar c || isDigitChar c || c == 0x5F

/-- Unicode general category Mn (non-spacing combining marks), on the
combining diacritical marks block produced by the NFD table below. -/
def isMn (c : Nat) : Bool := betw 0x300 0x36F c

/-- Unicode general categories starting with C (control, format, surrogate,
private use), on the ranges relevant to validation: C0/C1 controls, soft
hyphen, Arabic format signs, zero-width and directional format characters,
word joiners, BOM, surrogates, and the BMP private-use area. -/
def isCatC (c : Nat) : Bool :=
  betw 0x0 0x1F c || betw 0x7F 0x9F c || c == 0xAD || betw 0x600 0x605 c ||
  c == 0x61C || betw 0x200B 0x200F c || betw 0x202A 0x202E c ||
  betw 0x2060 0x2064 c || betw 0x2066 0x206F c || c == 0xFEFF ||
  betw 0xD800 0xDFFF c || betw 0xE000 0xF8FF c

/-- Canonical (NFD) decompositions of the precomposed Latin-1 letters; every
other modelled code point is NFD-stable.  Pairs are
(precomposed, base-letter :: combining-mark). -/
def nfdTable : List (Nat × List Nat) :=
  [ (0xC0, [0x41, 0x300]), (0xC1, [0x41, 0x301]), (0xC2, [0x41, 0x302]),
    (0xC3, [0x41, 0x303]), (0xC4, [0x41, 0x308]), (0xC5, [0x41, 0x30A]),
    (0xC7, [0x43, 0x327]), (0xC8, [0x45, 0x300]), (0xC9, [0x45, 0x301]),
    (0xCA, [0x45, 0x302]), (0xCB, [0x45, 0x308]), (0xCC, [0x49, 0x300]),
    (0xCD, [0x49, 0x301]), (0xCE, [0x49, 0x302]), (0xCF, [0x49, 0x308]),
    (0xD1, [0x4E, 0x303]), (0xD2, [0x4F, 0x300]), (0xD3, [0x4F, 0x301]),
    (0xD4, [0x4F, 0x302]), (0xD5, [0x4F, 0x303]), (0xD6, [0x4F, 0x308]),
    (0xD9, [0x55, 0x300]), (0xDA, [0x55, 0x301]), (0xDB, [0x55, 0x302]),
    (0xDC, [0x55, 0x308]), (0xDD, [0x59, 0x301]),
    (0xE0, [0x61, 0x300]), (0xE1, [0x61, 0x301]), (0xE2, [0x61, 0x302]),
    (0xE3, [0x61, 0x303]), (0xE4, [0x61, 0x308]), (0xE5, [0x61, 0x30A]),
    (0xE7, [0x63, 0x327]), (0xE8, [0x65, 0x300]), (0xE9, [0x65, 0x301]),
    (0xEA, [0x65, 0x302]), (0xEB, [0x65, 0x308]), (0xEC, [0x69, 0x300]),
    (0xED, [0x69, 0x301]), (0xEE, [0x69, 0x302]), (0xEF, [0x69, 0x308]),
    (0xF1, [0x6E, 0x303]), (0xF2, [0x6F, 0x300]), (0xF3, [0x6F, 0x301]),
    (0xF4, [0x6F, 0x302]), (0xF5, [0x6F, 0x303]), (0xF6, [0x6F, 0x308]),
    (0xF9, [0x75, 0x300]), (0xFA, [0x75, 0x301]), (0xFB, [0x75, 0x302]),
    (0xFC, [0x75, 0x308]), (0xFD, [0x79, 0x301]), (0xFF, [0x79, 0x308]) ]

/-- Look up the canonical decomposition of a code point. -/
def nfdLookup (c : Nat) : Option (List Nat) :=
  (nfdTable.find? (fun p => p.1 == c)).map (·.2)

/-- NFD decomposition of a single code point. -/
def nfdChar (c : Nat) : List Nat := (nfdLookup c).getD [c]

/-- A code point with no canonical decomposition. -/
def nfdStable (c : Nat) : Bool := (nfdLookup c).isNone

/-- `unicodedata.normalize('NFD', s)` on the modelled ranges. -/
def nfdStr (s : UStr) : UStr := s.flatMap nfdChar

/-- `str.upper`, modelled per code point on ASCII, Latin-1 (the two
operators and the non-bicameral letters ß and ÿ are left unchanged) and
Cyrillic а–я; every other modelled code point is uncased or unchanged. -/
def toUpperChar (c : Nat) : Nat :=
  if betw 0x61 0x7A c then c - 0x20
  else if betw 0xE0 0xFE c && !(c == 0xF7) then c - 0x20
  else if betw 0x430 0x44F c then c - 0x20
  else c

/-- One pass of `re.sub(r'\s+', ' ', s)`: each maximal run of whitespace
is replaced by a single space.  The accumulator records whether the
previous character was part of a whitespace run. -/
def collapseAux : Bool → UStr → UStr
  | _, [] => []
  | prev, c :: rest =>
    if isSpaceChar c then
      if prev then collapseAux true rest else 0x20 :: collapseAux true rest
    else c :: collapseAux false rest

/-- `re.sub(r'\s+', ' ', s)`. -/
def collapseSpaces (s : UStr) : UStr := collapseAux false s

/-- Python `str.strip()`: drop leading and trailing whitespace. -/
def pyStrip (s : UStr) : UStr :=
  (((s.dropWhile isSpaceChar).reverse.dropWhile isSpaceChar)).reverse

/-- `EnhancedSanctionsScreener._normalize_name`: NFD-decompose, drop
combining marks (category Mn), replace every character matching
`[^\w\s]` with a space, collapse whitespace runs, uppercase, strip. -/
def normalize_name (s : UStr) : UStr :=
  if s = [] then []
  else
    pyStrip
      ((collapseSpaces
        (((nfdStr s).filter (fun c => !(isMn c))).map
          (fun c => if isWordChar c || isSpaceChar c then c else 0x20))).map
        toUpperChar)

/-- Characters removed by `_normalize_document`: the regex class
`[\s\-\.\,\/]`. -/
def isDocSep (c : Nat) : Bool :=
  isSpaceChar c || c == 0x2D || c == 0x2E || c == 0x2C || c == 0x2F

/-- `EnhancedSanctionsScreener._normalize_document`: remove whitespace,
hyphens, periods, commas and slashes, then uppercase. -/
def normalize_document (s : UStr) : UStr :=
  if s = [] then []
  else (s.filter (fun c => !(isDocSep c))).map toUpperChar

/-- Characters removed by `sanitize_for_logging`'s first substitution:
the regex class `[\r\n\x00-\x1f\x7f-\x9f]` (CR and LF already lie in
`\x00-\x1f`). -/
def isLogCtrl (c : Nat) : Bool := betw 0x0 0x1F c || betw 0x7F 0x9F c

/-- `xml_utils.sanitize_for_logging`: replace C0/C1 control characters with
spaces, collapse whitespace runs, strip, truncate to 500 code points. -/
def sanitize_for_logging (s : UStr) : UStr :=
  if s = [] then []
  else
    let s1 := s.map (fun c => if isLogCtrl c then 0x20 else c)
    let s2 := pyStrip (collapseSpaces s1)
    s2.take 500

/-!
Fuzzy name similarity: `rapidfuzz.fuzz.token_sort_ratio`.  Both strings are
split on whitespace, the tokens sorted, rejoined with single spaces, and the
two canonical strings compared with the indel-based ratio
`100 · 2 · lcs(a,b) / (|a| + |b|)` (`lcs` = longest common subsequence).
-/

/-- Split a string on whitespace runs, discarding empty parts
(Python `str.split()`); the accumulator holds the current word reversed. -/
def splitWsGo : UStr → UStr → List UStr
  | acc, [] => if acc = [] then [] else [acc.reverse]
  | acc, c :: rest =>
    if isSpaceChar c then
      if acc = [] then splitWsGo [] rest else acc.reverse :: splitWsGo [] rest
    else splitWsGo (c :: acc) rest

/-- Python `str.split()` with no arguments. -/
def splitWs (s : UStr) : List UStr := splitWsGo [] s

/-- Lexicographic comparison of code-point strings (Python `<=` on `str`). -/
def ustrLe : UStr → UStr → Bool
  | [], _ => true
  | _ :: _, [] => false
  | a :: as, b :: bs => if a < b then true else if b < a then false else ustrLe as bs

/-- Insert into a sorted list of strings. -/
def insortStr (x : UStr) : List UStr → List UStr
  | [] => [x]
  | y :: ys => if ustrLe x y then x :: y :: ys else y :: insortStr x ys

/-- Python `sorted` on a list of strings. -/
def sortStrs : List UStr → List UStr
  | [] => []
  | x :: xs => insortStr x (sortStrs xs)

/-- The token-sort canonical form: sort the whitespace-separated tokens and
rejoin them with single spaces. -/
def sortedJoin (s : UStr) : UStr := List.intercalate [0x20] (sortStrs (splitWs s))

/-- One DP row update for the longest-common-subsequence length.  `prev` is
the tail of the previous row, `diag` the entry left of `prev`'s head, and
`left` the previously computed entry of the new row. -/
def lcsNewRow (a : Nat) : UStr → List Nat → Nat → Nat → List Nat
  | [], _, _, _ => []
  | b :: bs, prev, diag, left =>
    match prev with
    | [] => []
    | up :: prevRest =>
      let cur := if a == b then diag + 1 else max up left
      cur :: lcsNewRow a bs prevRest up cur

/-- Fold one character of the first string through the DP row. -/
def lcsFold (bs : UStr) (row : List Nat) (a : Nat) : List Nat :=
  match row with
  | [] => []
  | d :: rest => 0 :: lcsNewRow a bs rest d 0

/-- Length of the longest common subsequence, by row dynamic programming. -/
def lcsLen (as bs : UStr) : Nat :=
  ((as.foldl (lcsFold bs) (List.replicate (bs.length + 1) 0)).getLastD 0)

/-- `fuzz.token_sort_ratio`, as an exact rational in [0, 100]. -/
def tokenSortScore (a b : UStr) : Q :=
  let a' := sortedJoin a
  let b' := sortedJoin b
  if a'.length + b'.length = 0 then 100
  else Q.mk' (200 * (lcsLen a' b' : Int)) (a'.length + b'.length)

/-!
Configuration (`config_manager.py` dataclass defaults).  Integer thresholds
stay integers; the float weights become exact rationals.
-/

/-- Adaptive short-name thresholds by Unicode script
(`AdaptiveThresholdConfig`). -/
structure AdaptiveThresholdConfig where
  enabled : Bool
  chinese : Q
  arabic : Q
  cyrillic : Q
  latin_initials : Q
deriving DecidableEq

/-- `MatchingConfig`: thresholds, weights, layer cutoffs, common names. -/
structure MatchingConfig where
  name_threshold : Q
  short_name_threshold : Q
  common_names : List UStr
  w_name : Q
  w_document : Q
  w_dob : Q
  layer_high_confidence : Q
  layer_moderate_match : Q
  layer_low_match : Q
  adaptive : AdaptiveThresholdConfig
deriving DecidableEq

/-- `ReportingConfig.recommendation_thresholds`. -/
structure ReportingConfig where
  auto_clear : Q
  manual_review : Q
  auto_escalate : Q
deriving DecidableEq

/-- `InputValidationConfig`. -/
structure InputValidationConfig where
  name_min_length : Nat
  name_max_length : Nat
  document_max_length : Nat
  allow_unicode_names : Bool
  blocked_characters : UStr
deriving DecidableEq

/-- The configuration sections consulted by the screener. -/
structure ScreenerConfig where
  matching : MatchingConfig
  reporting : ReportingConfig
  input_validation : InputValidationConfig
deriving DecidableEq

/-- Default adaptive thresholds (chinese 85, arabic 90, cyrillic 90,
latin initials 98). -/
def defaultAdaptive : AdaptiveThresholdConfig :=
  { enabled := true, chinese := 85, arabic := 90, cyrillic := 90,
    latin_initials := 98 }

/-- Default matching configuration (thresholds 85/95, weights
0.40/0.30/0.15, layers 85/70/60). -/
def defaultMatching : MatchingConfig :=
  { name_threshold := 85, short_name_threshold := 95, common_names := [],
    w_name := Q.mk' 2 5, w_document := Q.mk' 3 10, w_dob := Q.mk' 3 20,
    layer_high_confidence := 85, layer_moderate_match := 70,
    layer_low_match := 60, adaptive := defaultAdaptive }

/-- Default recommendation thresholds (60/85/95). -/
def defaultReporting : ReportingConfig :=
  { auto_clear := 60, manual_review := 85, auto_escalate := 95 }

/-- Default input-validation configuration; `blocked_characters` is the
string `<>{}[]|\;` backtick `$` written as code points. -/
def defaultInputValidation : InputValidationConfig :=
  { name_min_length := 2, name_max_length := 200, document_max_length := 50,
    allow_unicode_names := true,
    blocked_characters :=
      [0x3C, 0x3E, 0x7B, 0x7D, 0x5B, 0x5D, 0x7C, 0x5C, 0x3B, 0x60, 0x24] }

/-- The full default configuration. -/
def defaultConfig : ScreenerConfig :=
  { matching := defaultMatching, reporting := defaultReporting,
    input_validation := defaultInputValidation }

/-!
Input validation (`validate_screening_input` in `screener.py`).
-/

/-- Error codes raised by `validate_screening_input`. -/
inductive ECode
  | NAME_TOO_SHORT | NAME_TOO_LONG | BLOCKED_CHARACTERS | CONTROL_CHARACTER
  | INVALID_FORMAT | INVALID_DOB_FORMAT | DOCUMENT_TOO_LONG
  | INVALID_DOCUMENT_FORMAT
deriving DecidableEq

/-- The input field an error refers to. -/
inductive EField
  | name | date_of_birth | document_number
deriving DecidableEq

/-- An `InputValidationError`, reduced to its machine-readable parts. -/
structure VErr where
  code : ECode
  field : EField
deriving DecidableEq

/-- `ScreeningInput`.  Optional Python strings are modelled as possibly
empty code-point lists (both `None` and `""` are falsy in every use the
screener makes of them), except `document_type`, whose only use is an
`is None` test. -/
structure ScreeningInput where
  name : UStr
  document_number : UStr := []
  document_type : Option UStr := none
  date_of_birth : UStr := []
  nationality : UStr := []
  country : UStr := []
deriving DecidableEq

/-- Character class of `NAME_PATTERN`:
`[A-Za-zÀ-ÿ\s\-\.\'\,؀-ۿЀ-ӿ一-鿿]`. -/
def namePatternChar (c : Nat) : Bool :=
  betw 0x41 0x5A c || betw 0x61 0x7A c || betw 0xC0 0xFF c || isSpaceChar c ||
  c == 0x2D || c == 0x2E || c == 0x27 || c == 0x2C ||
  betw 0x600 0x6FF c || betw 0x400 0x4FF c || betw 0x4E00 0x9FFF c

/-- `NAME_PATTERN.match(name)`: every character in the class and length
between 2 and 200. -/
def namePatternMatch (s : UStr) : Bool :=
  s.all namePatternChar && decide (2 ≤ s.length) && decide (s.length ≤ 200)

/-- `DOB_PATTERN.match`: `^\d{4}(-\d{2}(-\d{2})?)?$`. -/
def dobPatternMatch : UStr → Bool
  | [a, b, c, d] => isDigitChar a && isDigitChar b && isDigitChar c && isDigitChar d
  | [a, b, c, d, h, e, f] =>
    isDigitChar a && isDigitChar b && isDigitChar c && isDigitChar d &&
    h == 0x2D && isDigitChar e && isDigitChar f
  | [a, b, c, d, h, e, f, h2, g, i] =>
    isDigitChar a && isDigitChar b && isDigitChar c && isDigitChar d &&
    h == 0x2D && isDigitChar e && isDigitChar f &&
    h2 == 0x2D && isDigitChar g && isDigitChar i
  | _ => false

/-- Character class of `DOC_NUMBER_PATTERN`: `[A-Za-z0-9\-\s\.]`. -/
def docPatternChar (c : Nat) : Bool :=
  betw 0x41 0x5A c || betw 0x61 0x7A c || betw 0x30 0x39 c ||
  c == 0x2D || isSpaceChar c || c == 0x2E

/-- `DOC_NUMBER_PATTERN.match`: class characters only, length 1 to 50. -/
def docPatternMatch (s : UStr) : Bool :=
  s.all docPatternChar && decide (1 ≤ s.length) && decide (s.length ≤ 50)

/-- The date-of-birth and document-number checks shared by both branches
of the name-format validation. -/
def validateDobDoc (iv : InputValidationConfig) (inp : ScreeningInput) :
    Option VErr :=
  if inp.date_of_birth ≠ [] && !(dobPatternMatch inp.date_of_birth) then
    some ⟨.INVALID_DOB_FORMAT, .date_of_birth⟩
  else if inp.document_number ≠ [] then
    if iv.document_max_length < inp.document_number.length then
      some ⟨.DOCUMENT_TOO_LONG, .document_number⟩
    else if !(docPatternMatch inp.document_number) then
      some ⟨.INVALID_DOCUMENT_FORMAT, .document_number⟩
    else none
  else none

/-- `validate_screening_input`: the checks in source order, returning the
first failure (the source raises; the model returns `some` error). -/
def validate_screening_input (cfg : ScreenerConfig) (inp : ScreeningInput) :
    Option VErr :=
  let iv := cfg.input_validation
  let name := inp.name
  if (pyStrip name).length < iv.name_min_length then
    some ⟨.NAME_TOO_SHORT, .name⟩
  else if iv.name_max_length < name.length then
    some ⟨.NAME_TOO_LONG, .name⟩
  else if name.any (fun c => iv.blocked_characters.contains c) then
    some ⟨.BLOCKED_CHARACTERS, .name⟩
  else if iv.allow_unicode_names then
    if name.any isCatC then some ⟨.CONTROL_CHARACTER, .name⟩
    else validateDobDoc iv inp
  else if !(namePatternMatch name) then
    some ⟨.INVALID_FORMAT, .name⟩
  else validateDobDoc iv inp

/-!
The entity model and the document index (`_parse_*` output shape and
`_index_documents`).  Dictionary keys `id` and `type` are renamed `eid`
and `etype`; `dtype` is the identity document's `type` field.  Absent
optional string values are modelled as the empty string (falsy in every
use the screener makes of them).
-/

/-- One identity document of a sanctioned entity. -/
structure IdentityDoc where
  dtype : UStr
  number : UStr
deriving DecidableEq

/-- A parsed sanctions entity, restricted to the fields the matching
engine reads. -/
structure Entity where
  eid : UStr
  name : UStr
  all_names : List UStr
  etype : UStr
  identity_documents : List IdentityDoc
  vesselIMO : UStr := []
  dateOfBirth : UStr := []
  nationality : UStr := []
  citizenship : UStr := []
  countries : List UStr := []
deriving DecidableEq

/-- The document index: a Python dict from normalized document numbers to
lists of entities, in insertion order. -/
abbrev DocIndex := List (UStr × List Entity)

/-- Append an entity under a key
(`self._document_index.setdefault(k, []).append(entity)` in effect). -/
def indexAppend (idx : DocIndex) (k : UStr) (e : Entity) : DocIndex :=
  if (idx.find? (fun p => p.1 == k)).isSome then
    idx.map (fun p => if p.1 == k then (p.1, p.2 ++ [e]) else p)
  else idx ++ [(k, [e])]

/-- Dict lookup in the document index. -/
def assocFind (idx : DocIndex) (k : UStr) : Option (List Entity) :=
  (idx.find? (fun p => p.1 == k)).map (·.2)

/-- `EnhancedSanctionsScreener._index_documents`: index every identity
document with a non-empty number, then the vessel IMO if present. -/
def _index_documents (idx : DocIndex) (e : Entity) : DocIndex :=
  let idx1 := e.identity_documents.foldl
    (fun acc d =>
      if d.number ≠ [] then indexAppend acc (normalize_document d.number) e
      else acc) idx
  if e.vesselIMO ≠ [] then indexAppend idx1 (normalize_document e.vesselIMO) e
  else idx1

/-- Build the document index of a corpus, as the load loop does. -/
def buildIndex (es : List Entity) : DocIndex := es.foldl _index_documents []

/-- The screener state after loading: configuration, entity list, and
document index. -/
structure Screener where
  config : ScreenerConfig
  entities : List Entity
  document_index : DocIndex

/-- A screener over a corpus, with the index built as at load time. -/
def mkScreener (cfg : ScreenerConfig) (es : List Entity) : Screener :=
  { config := cfg, entities := es, document_index := buildIndex es }

/-!
The matching engine (`search_by_document` and `search`).
-/

/-- Reason string attached to the adaptive threshold
(`threshold_reason` in the source). -/
inductive ThReason
  | rdefault | latin_initials | chinese_name | arabic_name | cyrillic_name
  | latin_default
deriving DecidableEq

/-- Advisory flags attached to a match. -/
inductive MatchFlag
  | DOCUMENT_EXACT_MATCH | DOCUMENT_MATCH | SHORT_NAME_QUERY
  | ADAPTIVE_THRESHOLD (reason : ThReason)
  | COMMON_NAME | COMMON_NAME_REQUIRES_SECONDARY_VALIDATION
  | NO_DOCUMENT_MATCH | ENTITY_MATCH
  | NATIONALITY_EXACT_MATCH_INFO | NATIONALITY_SUBSTRING_MATCH_INFO
deriving DecidableEq

/-- Disposition recommendations. -/
inductive Recommendation
  | AUTO_ESCALATE | MANUAL_REVIEW | LOW_CONFIDENCE_REVIEW | AUTO_CLEAR
deriving DecidableEq

/-- `ConfidenceBreakdown` (the address dimension is never written and is
omitted). -/
structure ConfidenceBreakdown where
  overall : Q
  name_score : Q
  document_score : Q
  dob_score : Q
  nationality_score : Q
deriving DecidableEq

/-- `MatchResult`. -/
structure MatchResult where
  entity : Entity
  confidence : ConfidenceBreakdown
  flags : List MatchFlag
  recommendation : Recommendation
  match_layer : Nat
  matched_name : UStr
  matched_document : Option UStr
deriving DecidableEq

/-- `_is_short_name`: at most two words with total length below 10, or any
word of length at most 2. -/
def _is_short_name (name : UStr) : Bool :=
  let words := splitWs name
  (decide (words.length ≤ 2) && decide (name.length < 10)) ||
  words.any (fun w => decide (w.length ≤ 2))

/-- The normalized common-name set
(`self._common_names`, built at initialization). -/
def commonNamesNorm (S : Screener) : List UStr :=
  S.config.matching.common_names.map normalize_name

/-- `_is_common_name`. -/
def _is_common_name (S : Screener) (name : UStr) : Bool :=
  (commonNamesNorm S).contains (normalize_name name)

/-- Script classes returned by `_detect_unicode_script`. -/
inductive Script
  | chinese | arabic | cyrillic | latin | mixed
deriving DecidableEq

/-- `_detect_unicode_script`: dominant script when one holds more than half
of the counted letters.  The source's float test `count / total > 0.5` is
the exact test `total < 2 * count`. -/
def _detect_unicode_script (name : UStr) : Script :=
  let ch := name.countP (fun c => betw 0x4E00 0x9FFF c)
  let ar := name.countP (fun c => !(betw 0x4E00 0x9FFF c) && betw 0x600 0x6FF c)
  let cy := name.countP (fun c =>
    !(betw 0x4E00 0x9FFF c) && !(betw 0x600 0x6FF c) && betw 0x400 0x4FF c)
  let la := name.countP (fun c =>
    !(betw 0x4E00 0x9FFF c) && !(betw 0x600 0x6FF c) &&
    !(betw 0x400 0x4FF c) && isLetterChar c)
  let total := ch + ar + cy + la
  if total = 0 then .latin
  else if total < 2 * ch then .chinese
  else if total < 2 * ar then .arabic
  else if total < 2 * cy then .cyrillic
  else if total < 2 * la then .latin
  else .mixed

/-- Uppercase cased letters on the modelled ranges (for `str.isupper`). -/
def isUpperCased (c : Nat) : Bool :=
  betw 0x41 0x5A c || (betw 0xC0 0xDE c && !(c == 0xD7)) || betw 0x400 0x42F c

/-- Lowercase cased letters on the modelled ranges. -/
def isLowerCased (c : Nat) : Bool :=
  betw 0x61 0x7A c || (betw 0xDF 0xFF c && !(c == 0xF7)) || betw 0x430 0x45F c

/-- Python `str.isupper`: at least one cased character and no lowercase
cased character. -/
def pyIsUpper (s : UStr) : Bool := s.any isUpperCased && !(s.any isLowerCased)

/-- Python `str.isalpha`: non-empty and all letters. -/
def pyIsAlpha (s : UStr) : Bool := !(s.isEmpty) && s.all isLetterChar

/-- `_is_latin_initials`: after removing dots and ASCII spaces, at most 4
characters, `isupper`, and `isalpha`. -/
def _is_latin_initials (name : UStr) : Bool :=
  let cleaned := name.filter (fun c => !(c == 0x2E) && !(c == 0x20))
  decide (cleaned.length ≤ 4) && pyIsUpper cleaned && pyIsAlpha cleaned

/-- `_get_adaptive_threshold`: script-dependent threshold for short names,
with its reason. -/
def _get_adaptive_threshold (m : MatchingConfig) (name : UStr) :
    Q × ThReason :=
  if !m.adaptive.enabled then (m.short_name_threshold, .rdefault)
  else if _is_latin_initials name then
    (m.adaptive.latin_initials, .latin_initials)
  else
    match _detect_unicode_script name with
    | .chinese => (m.adaptive.chinese, .chinese_name)
    | .arabic => (m.adaptive.arabic, .arabic_name)
    | .cyrillic => (m.adaptive.cyrillic, .cyrillic_name)
    | _ => (m.short_name_threshold, .latin_default)

/-- `_extract_year`: the first run of four consecutive ASCII digits (the
source's later date patterns are subsumed by the leading `(\d{4})`
search). -/
def _extract_year : UStr → Option Nat
  | [] => none
  | a :: rest =>
    match rest with
    | b :: c :: d :: _ =>
      if isDigitChar a && isDigitChar b && isDigitChar c && isDigitChar d then
        some ((((a - 0x30) * 10 + (b - 0x30)) * 10 + (c - 0x30)) * 10 +
          (d - 0x30))
      else _extract_year rest
    | _ => none

/-- `_calculate_dob_score`: `max(0, 100 - 20·|Δyear|)` when both years are
extractable, otherwise 0 (natural subtraction clamps at 0). -/
def _calculate_dob_score (input_dob entity_dob : UStr) : Q :=
  match _extract_year input_dob, _extract_year entity_dob with
  | some y1, some y2 =>
    Q.ofNat (100 - 20 * (if y2 ≤ y1 then y1 - y2 else y2 - y1))
  | _, _ => 0

/-- The informational nationality flag computed inside the scoring loop. -/
def natFlagOf (inp : ScreeningInput) (e : Entity) : Option MatchFlag :=
  if inp.nationality = [] && inp.country = [] then none
  else
    let input_countries :=
      (if inp.nationality ≠ [] then [inp.nationality.map toUpperChar] else [])
      ++ (if inp.country ≠ [] then [inp.country.map toUpperChar] else [])
    let entity_countries :=
      (e.countries.map (fun s => s.map toUpperChar))
      ++ (if e.nationality ≠ [] then [e.nationality.map toUpperChar] else [])
      ++ (if e.citizenship ≠ [] then [e.citizenship.map toUpperChar] else [])
    if input_countries.any (fun ic => entity_countries.contains ic) then
      some .NATIONALITY_EXACT_MATCH_INFO
    else if !(entity_countries.isEmpty) &&
        input_countries.any (fun ic => entity_countries.any (fun ec =>
          decide (4 ≤ min ic.length ec.length) &&
          (ic.isPrefixOf ec || ic.isSuffixOf ec ||
           ec.isPrefixOf ic || ec.isSuffixOf ic))) then
      some .NATIONALITY_SUBSTRING_MATCH_INFO
    else none

/-- Best fuzzy name score over `all_names` with its arg-max name; a
strictly greater score replaces the current best, so the earliest maximal
name wins. -/
def bestNameOf (qn : UStr) (e : Entity) : Q × UStr :=
  e.all_names.foldl
    (fun acc cand =>
      if cand = [] then acc
      else
        let score := tokenSortScore qn (normalize_name cand)
        if acc.1 < score then (score, cand) else acc)
    (0, [])

/-- Document score inside the name-scoring loop: 100 for the first identity
document whose normalized number equals the normalized input document
(no type filter here), else 0. -/
def docScoreOf (inp : ScreeningInput) (e : Entity) : Q × Option UStr :=
  if inp.document_number = [] then (0, none)
  else
    let q := normalize_document inp.document_number
    match e.identity_documents.find?
        (fun d => normalize_document d.number == q) with
    | some d => (100, some d.number)
    | none => (0, none)

/-- Recommendation from the clamped overall score. -/
def recommendationFor (r : ReportingConfig) (overall : Q) : Recommendation :=
  if r.auto_escalate ≤ overall then .AUTO_ESCALATE
  else if r.manual_review ≤ overall then .MANUAL_REVIEW
  else if r.auto_clear ≤ overall then .LOW_CONFIDENCE_REVIEW
  else .AUTO_CLEAR

/-- The code points of the string `entity`. -/
def entityWord : UStr := [0x65, 0x6E, 0x74, 0x69, 0x74, 0x79]

/-- The body of the name-scoring loop for one entity, up to but excluding
the admission test: skip entities already matched by the document layer,
skip name scores below `layers.low_match`, then build the `MatchResult`
exactly as the source does. -/
def mkCandidate (S : Screener) (inp : ScreeningInput) (qn : UStr)
    (is_short is_common : Bool) (reason : ThReason) (seen : List UStr)
    (e : Entity) : Option MatchResult :=
  if seen.contains e.eid then none
  else
    let best := bestNameOf qn e
    if best.1 < S.config.matching.layer_low_match then none
    else
      let ds := docScoreOf inp e
      let doc_score := ds.1
      let dob_score :=
        if inp.date_of_birth ≠ [] && e.dateOfBirth ≠ [] then
          _calculate_dob_score inp.date_of_birth e.dateOfBirth
        else 0
      let nat_flag := natFlagOf inp e
      let overall := best.1 * S.config.matching.w_name +
        doc_score * S.config.matching.w_document +
        dob_score * S.config.matching.w_dob
      let overallC := Q.maxQ 0 (Q.minQ 100 overall)
      let layer : Nat :=
        if doc_score == 100 then 1
        else if S.config.matching.layer_high_confidence ≤ best.1 then
          (if nat_flag.isSome || (60 ≤ dob_score) then 2 else 3)
        else if S.config.matching.layer_moderate_match ≤ best.1 then 3
        else 4
      let flags1 : List MatchFlag :=
        (if doc_score == 100 then [.DOCUMENT_MATCH] else []) ++
        (if is_short then
          [.SHORT_NAME_QUERY] ++
          (if reason ≠ .rdefault && reason ≠ .latin_default then
            [.ADAPTIVE_THRESHOLD reason] else [])
         else []) ++
        (if is_common then [.COMMON_NAME] else []) ++
        (match nat_flag with | some f => [f] | none => []) ++
        (if doc_score == 0 && inp.document_number ≠ [] then
          [.NO_DOCUMENT_MATCH] else []) ++
        (if e.etype = entityWord then [.ENTITY_MATCH] else [])
      let rec0 := recommendationFor S.config.reporting overallC
      let finalRec :=
        if is_common && doc_score == 0 then
          (if rec0 = .AUTO_ESCALATE then .MANUAL_REVIEW else rec0)
        else rec0
      let finalFlags :=
        if is_common && doc_score == 0 then
          flags1 ++ [.COMMON_NAME_REQUIRES_SECONDARY_VALIDATION]
        else flags1
      some
        { entity := e
          confidence :=
            { overall := overallC, name_score := best.1,
              document_score := doc_score, dob_score := dob_score,
              nationality_score := 0 }
          flags := finalFlags
          recommendation := finalRec
          match_layer := layer
          matched_name := best.2
          matched_document := ds.2 }

/-- The admission test: `confidence.overall >= base_threshold or
doc_score == 100`. -/
def admitted (baseThr : Q) (r : MatchResult) : Bool :=
  baseThr ≤ r.confidence.overall || r.confidence.document_score == 100

/-- The first identity document whose normalized number equals the query
and whose type passes the optional case-insensitive type filter
(`search_by_document`'s inner loop). -/
def findMatchedDoc (e : Entity) (q : UStr) (doc_type : Option UStr) :
    Option UStr :=
  (e.identity_documents.find? (fun d =>
      normalize_document d.number == q &&
      (match doc_type with
       | none => true
       | some t => d.dtype.map toUpperChar == t.map toUpperChar))).map
    (·.number)

/-- `search_by_document` (layer 1): look the normalized number up in the
index and emit a 100%-confidence layer-1 result for every entity whose
documents (or vessel IMO) re-verify the match. -/
def search_by_document (S : Screener) (doc_number : UStr)
    (doc_type : Option UStr) : List MatchResult :=
  match assocFind S.document_index (normalize_document doc_number) with
  | none => []
  | some ents =>
    ents.filterMap (fun e =>
      let md := findMatchedDoc e (normalize_document doc_number) doc_type
      let md2 := match md with
        | some m => some m
        | none =>
          if e.vesselIMO ≠ [] &&
              normalize_document e.vesselIMO ==
                normalize_document doc_number then
            some e.vesselIMO
          else none
      md2.map (fun m =>
        { entity := e
          confidence :=
            { overall := 100, name_score := 100, document_score := 100,
              dob_score := 0, nationality_score := 0 }
          flags := [.DOCUMENT_EXACT_MATCH]
          recommendation := .AUTO_ESCALATE
          match_layer := 1
          matched_name := e.name
          matched_document := some m }))

/-- The document layer of `search`: run `search_by_document` when the input
carries a document number. -/
def docLayer (S : Screener) (inp : ScreeningInput) : List MatchResult :=
  if inp.document_number ≠ [] then
    search_by_document S inp.document_number inp.document_type
  else []

/-- The per-search base threshold and its reason: the adaptive threshold
for short names, else `name_threshold`. -/
def applicableThreshold (S : Screener) (name : UStr) : Q × ThReason :=
  if _is_short_name name then _get_adaptive_threshold S.config.matching name
  else (S.config.matching.name_threshold, .rdefault)

/-- `seen_entity_ids`: ids already emitted by the document layer. -/
def seenIds (S : Screener) (inp : ScreeningInput) : List UStr :=
  (docLayer S inp).map (fun r => r.entity.eid)

/-- The name-scoring loop body for one entity, including the admission
test. -/
def candidateOf (S : Screener) (inp : ScreeningInput) (e : Entity) :
    Option MatchResult :=
  mkCandidate S inp (normalize_name inp.name) (_is_short_name inp.name)
    (_is_common_name S inp.name) (applicableThreshold S inp.name).2
    (seenIds S inp) e

/-- The admitted name-layer results, in corpus order. -/
def nameLayer (S : Screener) (inp : ScreeningInput) : List MatchResult :=
  S.entities.filterMap (fun e =>
    (candidateOf S inp e).bind (fun r =>
      if admitted (applicableThreshold S inp.name).1 r then some r else none))

/-- Stable sort by `confidence.overall` descending
(`results.sort(key=..., reverse=True)`; Python's sort is stable). -/
def sortResults (l : List MatchResult) : List MatchResult :=
  List.insertionSort (fun a b => b.confidence.overall ≤ a.confidence.overall) l

/-- `EnhancedSanctionsScreener.search`: validate, run the document layer,
then the name layers, sort by overall descending, truncate to `limit`.
When the normalized query name is empty the document-layer results are
returned as-is (the source's early `return results`). -/
def search (S : Screener) (inp : ScreeningInput) (limit : Nat) :
    Except VErr (List MatchResult) :=
  match validate_screening_input S.config inp with
  | some err => .error err
  | none =>
    if normalize_name inp.name = [] then .ok (docLayer S inp)
    else .ok ((sortResults (docLayer S inp ++ nameLayer S inp)).take limit)

/-!
Configuration loading (`config_manager.py`).  `ConfigManager.load` parses
each section (`dict.get` with dataclass defaults) and then calls
`self._validate()`, whose entire body is `pass` (a documented dummy
implementation).  Only the sections the validation rules mention are
modelled; the raw `weights` and `layers` dicts are modelled per key.
-/

/-- Raw YAML values for `matching.adaptive_thresholds` (absent keys are
`none`). -/
structure RawAdaptive where
  enabled : Option Bool := none
  chinese : Option Q := none
  arabic : Option Q := none
  cyrillic : Option Q := none
  latin_initials : Option Q := none
deriving DecidableEq

/-- Raw YAML values for the `matching` section. -/
structure RawMatching where
  name_threshold : Option Q := none
  short_name_threshold : Option Q := none
  common_names : Option (List UStr) := none
  w_name : Option Q := none
  w_document : Option Q := none
  w_dob : Option Q := none
  layer_high_confidence : Option Q := none
  layer_moderate_match : Option Q := none
  layer_low_match : Option Q := none
  adaptive : RawAdaptive := {}
deriving DecidableEq

/-- Raw YAML values for `reporting.recommendation_thresholds`. -/
structure RawReporting where
  auto_clear : Option Q := none
  manual_review : Option Q := none
  auto_escalate : Option Q := none
deriving DecidableEq

/-- Raw YAML values for the `input_validation` section. -/
structure RawInputValidation where
  name_min_length : Option Nat := none
  name_max_length : Option Nat := none
  document_max_length : Option Nat := none
  allow_unicode_names : Option Bool := none
  blocked_characters : Option UStr := none
deriving DecidableEq

/-- The raw configuration file, restricted to the modelled sections. -/
structure RawConfig where
  matching : RawMatching := {}
  reporting : RawReporting := {}
  input_validation : RawInputValidation := {}
deriving DecidableEq

/-- `ConfigManager._parse_matching`: defaults per `MatchingConfig` and
`AdaptiveThresholdConfig`. -/
def _parse_matching (r : RawMatching) : MatchingConfig :=
  { name_threshold := r.name_threshold.getD 85
    short_name_threshold := r.short_name_threshold.getD 95
    common_names := r.common_names.getD []
    w_name := r.w_name.getD (Q.mk' 2 5)
    w_document := r.w_document.getD (Q.mk' 3 10)
    w_dob := r.w_dob.getD (Q.mk' 3 20)
    layer_high_confidence := r.layer_high_confidence.getD 85
    layer_moderate_match := r.layer_moderate_match.getD 70
    layer_low_match := r.layer_low_match.getD 60
    adaptive :=
      { enabled := r.adaptive.enabled.getD true
        chinese := r.adaptive.chinese.getD 85
        arabic := r.adaptive.arabic.getD 90
        cyrillic := r.adaptive.cyrillic.getD 90
        latin_initials := r.adaptive.latin_initials.getD 98 } }

/-- `ConfigManager._parse_reporting`, restricted to the recommendation
thresholds. -/
def _parse_reporting (r : RawReporting) : ReportingConfig :=
  { auto_clear := r.auto_clear.getD 60
    manual_review := r.manual_review.getD 85
    auto_escalate := r.auto_escalate.getD 95 }

/-- `ConfigManager._parse_input_validation`. -/
def _parse_input_validation (r : RawInputValidation) : InputValidationConfig :=
  { name_min_length := r.name_min_length.getD 2
    name_max_length := r.name_max_length.getD 200
    document_max_length := r.document_max_length.getD 50
    allow_unicode_names := r.allow_unicode_names.getD true
    blocked_characters := r.blocked_characters.getD
      [0x3C, 0x3E, 0x7B, 0x7D, 0x5B, 0x5D, 0x7C, 0x5C, 0x3B, 0x60, 0x24] }

/-- `ConfigurationError`. -/
inductive ConfigError
  | configurationError
deriving DecidableEq

/-- `ConfigManager._validate`: the source body is `pass` (with a TODO
comment), so validation always succeeds. -/
def _validate_config (_ : ScreenerConfig) : Except ConfigError Unit := .ok ()

/-- Parse all modelled sections of a raw configuration. -/
def parseConfig (raw : RawConfig) : ScreenerConfig :=
  { matching := _parse_matching raw.matching
    reporting := _parse_reporting raw.reporting
    input_validation := _parse_input_validation raw.input_validation }

/-- `ConfigManager.load` after a successful YAML read: parse every section,
then `_validate`. -/
def configLoad (raw : RawConfig) : Except ConfigError ScreenerConfig :=
  let c := parseConfig raw
  match _validate_config c with
  | .ok _ => .ok c
  | .error e => .error e

/-- Modelled from the spec: the §4.11 configuration validation rules
(`name_threshold` and `short_name_threshold` in [0,100], recommendation
thresholds strictly ascending, `0 < name_min_length ≤ name_max_length ≤
1000`, `document_max_length > 0`).  No code under `src/` implements these
rules (`_validate` is a dummy); this definition transcribes the spec for
comparison. -/
def specConfigRulesOk (c : ScreenerConfig) : Bool :=
  decide (0 ≤ c.matching.name_threshold) &&
  decide (c.matching.name_threshold ≤ 100) &&
  decide (0 ≤ c.matching.short_name_threshold) &&
  decide (c.matching.short_name_threshold ≤ 100) &&
  decide (c.reporting.auto_clear < c.reporting.manual_review) &&
  decide (c.reporting.manual_review < c.reporting.auto_escalate) &&
  decide (0 < c.input_validation.name_min_length) &&
  decide (c.input_validation.name_min_length ≤
    c.input_validation.name_max_length) &&
  decide (c.input_validation.name_max_length ≤ 1000) &&
  decide (0 < c.input_validation.document_max_length)

/-!
The screening orchestrator (`screen_individual` in `screener.py` and the
`/api/v1/screen` handler in `api/server.py`).  `screener.screen_individual`
stamps the result with `datetime.now().isoformat()` — a naive local
timestamp — and stores no processing time; the API handler copies
`screening_date` from that result and adds
`processing_time_ms = int((time.time() - start_time) * 1000)`.
-/

/-- A Python `datetime`; `aware` is true when it was constructed with
`timezone.utc` (`datetime.now()` yields `aware = false`). -/
structure PyDateTime where
  year : Nat
  month : Nat
  day : Nat
  hour : Nat
  minute : Nat
  second : Nat
  microsecond : Nat
  aware : Bool
deriving DecidableEq

/-- Zero-padded decimal digits of a number, fixed width. -/
def padNum : Nat → Nat → UStr
  | 0, _ => []
  | k + 1, n => padNum k (n / 10) ++ [0x30 + n % 10]

/-- `datetime.isoformat()`: `YYYY-MM-DDTHH:MM:SS[.ffffff]`, with the
`+00:00` offset appended exactly when the datetime is timezone-aware (UTC
here). -/
def pyIsoformat (t : PyDateTime) : UStr :=
  padNum 4 t.year ++ [0x2D] ++ padNum 2 t.month ++ [0x2D] ++ padNum 2 t.day ++
  [0x54] ++ padNum 2 t.hour ++ [0x3A] ++ padNum 2 t.minute ++ [0x3A] ++
  padNum 2 t.second ++
  (if t.microsecond = 0 then [] else [0x2E] ++ padNum 6 t.microsecond) ++
  (if t.aware then [0x2B, 0x30, 0x30, 0x3A, 0x30, 0x30] else [])

/-- Whether an ISO 8601 string carries an explicit UTC offset designator
(the `+` of `+00:00`; no other modelled component contains `+`). -/
def hasUtcOffset (s : UStr) : Bool := decide (0x2B ∈ s)

/-- The code points of the version string `2.0.0`. -/
def ver200 : UStr := [0x32, 0x2E, 0x30, 0x2E, 0x30]

/-- The result dict assembled by `screener.screen_individual`, restricted
to the keys the API handler reads.  There is no processing-time key: the
source stores none. -/
structure ScreenerResult where
  screening_id : UStr
  screening_date : UStr
  is_hit : Bool
  hit_count : Nat
  matchesOut : List MatchResult
  algorithm_version : UStr
deriving DecidableEq

/-- `screener.screen_individual`: search with limit 10 and assemble the
result, stamping `screening_date = datetime.now().isoformat()` where `now`
is the naive local time captured at entry. -/
def screen_individual (S : Screener) (uuid : UStr) (now : PyDateTime)
    (inp : ScreeningInput) : Except VErr ScreenerResult :=
  (search S inp 10).map (fun ms =>
    { screening_id := uuid
      screening_date := pyIsoformat now
      is_hit := !ms.isEmpty
      hit_count := ms.length
      matchesOut := ms
      algorithm_version := ver200 })

/-- The API `ScreeningResponse` (`api/models.py`), restricted to the
modelled fields. -/
structure ApiScreeningResponse where
  screening_id : UStr
  screening_date : UStr
  is_hit : Bool
  hit_count : Nat
  matchesOut : List MatchResult
  processing_time_ms : ℤ
  algorithm_version : UStr
deriving DecidableEq

/-- The `/api/v1/screen` handler: call `screen_individual`, then build the
response with `processing_time_ms = int((time.time() - start_time) * 1000)`
(`int()` truncates; for `t0 ≤ t1` this is the floor) and `screening_date`
copied from the screener result (the UTC fallback only fires for an absent
key, and the key is always present). -/
def api_screen_individual (S : Screener) (uuid : UStr) (now : PyDateTime)
    (t0 t1 : Q) (inp : ScreeningInput) : Except VErr ApiScreeningResponse :=
  (screen_individual S uuid now inp).map (fun r =>
    { screening_id := r.screening_id
      screening_date := r.screening_date
      is_hit := r.is_hit
      hit_count := r.hit_count
      matchesOut := r.matchesOut
      processing_time_ms := Q.floor ((t1 - t0) * 1000)
      algorithm_version := r.algorithm_version })

/-!
Spec-side reference normalizer (for claim C7).
-/

/-- Modelled from the spec: §4.1 `normalize_name` — NFD-decompose, drop
combining marks (Mn), replace any character outside the union of Unicode
letters, digits and whitespace with a single space, collapse whitespace
runs, uppercase, trim. -/
def specNormalizeName (s : UStr) : UStr :=
  if s = [] then []
  else
    pyStrip
      ((collapseSpaces
        (((nfdStr s).filter (fun c => !(isMn c))).map
          (fun c =>
            if isLetterChar c || isDigitChar c || isSpaceChar c then c
            else 0x20))).map
        toUpperChar)

/-- The spec reference amended per the counterexample: the source keeps
every regex word character, so the preserved class is letters, digits,
underscore, and whitespace. -/
def specNormalizeNameAmended (s : UStr) : UStr :=
  if s = [] then []
  else
    pyStrip
      ((collapseSpaces
        (((nfdStr s).filter (fun c => !(isMn c))).map
          (fun c =>
            if isLetterChar c || isDigitChar c || c == 0x5F || isSpaceChar c
            then c else 0x20))).map
        toUpperChar)

/-!
Concrete fixtures: small corpora and inputs used by the closed theorems
and witnesses below.  Strings are given as code points with their ASCII
reading in comments.
-/

/-- `Jose Maria Garcia`. -/
def joseCorpusName : UStr :=
  [0x4A, 0x6F, 0x73, 0x65, 0x20, 0x4D, 0x61, 0x72, 0x69, 0x61, 0x20,
   0x47, 0x61, 0x72, 0x63, 0x69, 0x61]

/-- `José María García` (é = U+00E9, í = U+00ED). -/
def joseQueryName : UStr :=
  [0x4A, 0x6F, 0x73, 0xE9, 0x20, 0x4D, 0x61, 0x72, 0xED, 0x61, 0x20,
   0x47, 0x61, 0x72, 0x63, 0xED, 0x61]

/-- `individual`. -/
def individualWord : UStr :=
  [0x69, 0x6E, 0x64, 0x69, 0x76, 0x69, 0x64, 0x75, 0x61, 0x6C]

/-- Corpus entity named `Jose Maria Garcia`, no documents. -/
def joseEntity : Entity :=
  { eid := [0x31], name := joseCorpusName, all_names := [joseCorpusName],
    etype := individualWord, identity_documents := [] }

/-- Screener over the one-entity Jose corpus with the default config. -/
def joseScreener : Screener := mkScreener defaultConfig [joseEntity]

/-- Screening input `{name: "José María García"}`, no document. -/
def joseInput : ScreeningInput := { name := joseQueryName }

/-- `PASSPORT`. -/
def typePassport : UStr := [0x50, 0x41, 0x53, 0x53, 0x50, 0x4F, 0x52, 0x54]

/-- `ID`. -/
def typeId : UStr := [0x49, 0x44]

/-- `X1`. -/
def docX1 : UStr := [0x58, 0x31]

/-- `ZZZZ`. -/
def nameZZZZ : UStr := [0x5A, 0x5A, 0x5A, 0x5A]

/-- `QQQQ`. -/
def nameQQQQ : UStr := [0x51, 0x51, 0x51, 0x51]

/-- Entity named `ZZZZ` holding one PASSPORT document numbered `X1`. -/
def mismatchEntity : Entity :=
  { eid := [0x32], name := nameZZZZ, all_names := [nameZZZZ],
    etype := individualWord, identity_documents := [⟨typePassport, docX1⟩] }

/-- Screener over the `ZZZZ`/`X1` corpus. -/
def mismatchScreener : Screener := mkScreener defaultConfig [mismatchEntity]

/-- Input `{name: "QQQQ", document_number: "X1", document_type: "ID"}` —
the stored document's type is PASSPORT, so the type filter fails. -/
def mismatchInput : ScreeningInput :=
  { name := nameQQQQ, document_number := docX1, document_type := some typeId }

/-- The same query with the matching type `PASSPORT`. -/
def matchingTypeInput : ScreeningInput :=
  { name := nameQQQQ, document_number := docX1,
    document_type := some typePassport }

/-- `A B`. -/
def docASpB : UStr := [0x41, 0x20, 0x42]

/-- `AB`. -/
def docAB : UStr := [0x41, 0x42]

/-- `MMMM`. -/
def nameMMMM : UStr := [0x4D, 0x4D, 0x4D, 0x4D]

/-- `NNNN`. -/
def nameNNNN : UStr := [0x4E, 0x4E, 0x4E, 0x4E]

/-- Entity carrying two documents whose numbers `A B` and `AB` normalize
to the same key `AB`. -/
def dupEntity : Entity :=
  { eid := [0x33], name := nameMMMM, all_names := [nameMMMM],
    etype := individualWord,
    identity_documents := [⟨typePassport, docASpB⟩, ⟨typeId, docAB⟩] }

/-- Screener over the duplicate-document corpus. -/
def dupScreener : Screener := mkScreener defaultConfig [dupEntity]

/-- Input `{name: "NNNN", document_number: "AB"}`. -/
def dupInput : ScreeningInput :=
  { name := nameNNNN, document_number := docAB }

/-- First of two entities sharing document number `X1`. -/
def limitEntity1 : Entity :=
  { eid := [0x34], name := nameMMMM, all_names := [nameMMMM],
    etype := individualWord, identity_documents := [⟨typePassport, docX1⟩] }

/-- Second of two entities sharing document number `X1`. -/
def limitEntity2 : Entity :=
  { eid := [0x35], name := nameMMMM, all_names := [nameMMMM],
    etype := individualWord, identity_documents := [⟨typePassport, docX1⟩] }

/-- Screener over the two-entity shared-document corpus. -/
def limitScreener : Screener :=
  mkScreener defaultConfig [limitEntity1, limitEntity2]

/-- Input `{name: "NNNN", document_number: "X1"}`. -/
def limitInput : ScreeningInput :=
  { name := nameNNNN, document_number := docX1 }

/-- The default configuration with `allow_unicode_names` disabled. -/
def cfgLatinOnly : ScreenerConfig :=
  { defaultConfig with input_validation :=
      { defaultInputValidation with allow_unicode_names := false } }

/-- `AB` followed by the control character U+0001. -/
def nameABCtl : UStr := [0x41, 0x42, 0x01]

/-- `A`, the blocked character `<`, and the control character U+0001. -/
def nameBlkCtl : UStr := [0x41, 0x3C, 0x01]

/-- A raw configuration violating the spec rules:
`matching.name_threshold = 150`. -/
def badRawConfig : RawConfig :=
  { matching := { name_threshold := some 150 } }

/-- A naive local `datetime.now()` result. -/
def nowNaive : PyDateTime :=
  { year := 2024, month := 1, day := 2, hour := 3, minute := 4, second := 5,
    microsecond := 6, aware := false }

/-- A screener over the empty corpus. -/
def emptyScreener : Screener := mkScreener defaultConfig []

/-- Input `{name: "AB"}`. -/
def abInput : ScreeningInput := { name := docAB }

/-- The fixed request id used by the orchestrator fixtures. -/
def uuidFix : UStr := [0x75]

deriving instance DecidableEq for Except

/-- The concrete API response produced by the C9 witness scenario. -/
def resp9 : ApiScreeningResponse :=
  { screening_id := uuidFix, screening_date := pyIsoformat nowNaive,
    is_hit := false, hit_count := 0, matchesOut := [],
    processing_time_ms := 500, algorithm_version := ver200 }
/-- `AAAAA BBBBB` (11 characters, not a short name). -/
def w3name : UStr :=
  [0x41, 0x41, 0x41, 0x41, 0x41, 0x20, 0x42, 0x42, 0x42, 0x42, 0x42]
/-- Entity named `AAAAA BBBBB`. -/
def w3entity : Entity :=
  { eid := [0x36], name := w3name, all_names := [w3name],
    etype := individualWord, identity_documents := [] }
/-- Screener over the `AAAAA BBBBB` corpus. -/
def w3screener : Screener := mkScreener defaultConfig [w3entity]
/-- Input `{name: "AAAAA BBBBB"}`. -/
def w3input : ScreeningInput := { name := w3name }
/-- The name-stage candidate for `w3entity`: perfect name score 100,
overall 0.40·100 = 40, layer 3, recommendation AUTO_CLEAR. -/
def w3result : MatchResult :=
  { entity := w3entity
    confidence :=
      { overall := 40, name_score := 100, document_score := 0,
        dob_score := 0, nationality_score := 0 }
    flags := []
    recommendation := .AUTO_CLEAR
    match_layer := 3
    matched_name := w3name
    matched_document := none }
/-- Characters of the fully normalized output (besides the space 0x20):
word characters, NFD-stable, uppercase-fixed, non-whitespace. -/
def outChar (d : Nat) : Prop :=
  isWordChar d = true ∧ nfdStable d = true ∧ toUpperChar d = d ∧
  isSpaceChar d = false
/-- No two adjacent whitespace characters. -/
def noTwoSpaces (a b : Nat) : Prop :=
  ¬(isSpaceChar a = true ∧ isSpaceChar b = true)

/-!
Claim theorems.
-/

/-- C1: the spec's accent-insensitive scenario expects a hit for input
`José María García` against corpus entity `Jose Maria Garcia`.  The
normalized names agree and the fuzzy name score is exactly 100, yet the
admission rule compares `overall = 0.40·100 = 40` against
`name_threshold = 85` with no document score, so `search` returns no
match at all: the code cannot produce the spec's expected
`is_hit = true`. -/
theorem c1_name_only_search_never_hits :
    tokenSortScore (normalize_name joseQueryName)
        (normalize_name joseCorpusName) = 100 ∧
    search joseScreener joseInput 10 = .ok [] := by decide

/-- C4 fails on the code: `sanitize_for_logging` only substitutes
`[\r\n\x00-\x1f\x7f-\x9f]` and whitespace runs, so the zero-width
characters U+200B/U+200C/U+200D and the BOM U+FEFF — none of which are
Python whitespace — survive to the output unchanged. -/
theorem c4_sanitize_retains_zero_width :
    sanitize_for_logging [0x200B] = [0x200B] ∧
    0x200B ∈ sanitize_for_logging [0x4A, 0x200B, 0x42] ∧
    0x200C ∈ sanitize_for_logging [0x4A, 0x200C, 0x42] ∧
    0x200D ∈ sanitize_for_logging [0x4A, 0x200D, 0x42] ∧
    0xFEFF ∈ sanitize_for_logging [0x4A, 0xFEFF, 0x42] := by decide

/-- C6 fails on the code: `ConfigManager._validate` is a dummy (`pass`),
so `load` accepts every parsed configuration, including one whose
`name_threshold` is 150 and so violates the spec's §4.11 rules (the
repository's own tests expect `ConfigurationError` here). -/
theorem c6_config_load_never_validates :
    (∀ raw : RawConfig, configLoad raw = .ok (parseConfig raw)) ∧
    configLoad badRawConfig = .ok (parseConfig badRawConfig) ∧
    specConfigRulesOk (parseConfig badRawConfig) = false := by
  refine ⟨fun raw => rfl, rfl, by decide⟩

/-- C10: an entity with two documents normalizing to the same key `AB` is
stored twice under that key by `_index_documents`, and a search for that
number returns the same entity twice as layer-1 matches. -/
theorem c10_duplicate_documents_duplicate_matches :
    assocFind (buildIndex [dupEntity]) (normalize_document docAB) =
      some [dupEntity, dupEntity] ∧
    ((search dupScreener dupInput 10).toOption.getD []).countP
      (fun r => r.entity == dupEntity && r.match_layer == 1) = 2 ∧
    ((search dupScreener dupInput 10).toOption.getD []).length = 2 := by
  decide

/-- C2 counterexample: entity `ZZZZ` is stored in the index under key
`X1`, the input supplies document number `X1` with type `ID`, but the
stored document's type is `PASSPORT`; the layer-1 type filter rejects it,
the name score 0 falls below `low_match`, and the search output is empty —
the entity does not appear with `match_layer = 1` and `overall = 100` as
the claim requires. -/
theorem c2_counterexample :
    assocFind mismatchScreener.document_index (normalize_document docX1) =
      some [mismatchEntity] ∧
    search mismatchScreener mismatchInput 10 = .ok [] := by decide

/-- C3 counterexample: two entities share document number `X1`; with
`limit = 1` only the first layer-1 result is returned, while the second
entity's result has `confidence.document = 100` (so satisfies the claim's
admission condition) yet is absent from the output — the backward
direction of the claimed iff fails. -/
theorem c3_counterexample :
    ((search limitScreener limitInput 1).toOption.getD []).map
      (fun r => r.entity.eid) = [[0x34]] ∧
    (docLayer limitScreener limitInput).map
      (fun r => (r.entity.eid, r.confidence.document_score)) =
      [([0x34], 100), ([0x35], 100)] := by decide

/-- C5 counterexample: with `allow_unicode_names = false`, the
category-C check is skipped entirely (it lives inside the
`allow_unicode_names` branch), so the name `AB` + U+0001 fails the
Latin-only pattern with `INVALID_FORMAT`, not `CONTROL_CHARACTER` as the
claim asserts. -/
theorem c5_counterexample :
    validate_screening_input cfgLatinOnly { name := nameABCtl } =
      some ⟨.INVALID_FORMAT, .name⟩ ∧
    validate_screening_input cfgLatinOnly { name := nameABCtl } ≠
      some ⟨.CONTROL_CHARACTER, .name⟩ := by decide

/-- C7 counterexample: the source keeps regex word characters, and `_` is
a word character, so `A_B` is returned unchanged, while the spec's
reference definition (letters, digits, whitespace only) replaces the
underscore with a space. -/
theorem c7_counterexample :
    normalize_name [0x41, 0x5F, 0x42] = [0x41, 0x5F, 0x42] ∧
    specNormalizeName [0x41, 0x5F, 0x42] = [0x41, 0x20, 0x42] ∧
    normalize_name [0x41, 0x5F, 0x42] ≠
      specNormalizeName [0x41, 0x5F, 0x42] := by decide

/-- C9 counterexample: the screener stamps
`screening_date = datetime.now().isoformat()` — a naive local timestamp —
and the API response copies it verbatim, so the assembled response's
`screening_date` carries no UTC offset designator and is not a UTC
ISO 8601 timestamp. -/
theorem c9_counterexample :
    ((api_screen_individual emptyScreener uuidFix nowNaive 0 (Q.mk' 1 2)
        abInput).toOption.map
      (fun r => (r.screening_date, hasUtcOffset r.screening_date))) =
      some (pyIsoformat nowNaive, false) := by decide

/-!
Helper lemmas for the amended claims.
-/

/-- Pointwise agreement of the source's `[^\w\s]` replacement with the
amended spec class (letters, digits, underscore, whitespace). -/
theorem wordClass_eq (l : UStr) :
    l.map (fun c => if isWordChar c || isSpaceChar c then c else 0x20) =
    l.map (fun c =>
      if isLetterChar c || isDigitChar c || c == 0x5F || isSpaceChar c then c
      else 0x20) := by
  apply List.map_congr_left
  intro c _
  simp [isWordChar, Bool.or_assoc]

/-- C7 amended: the source normalizer agrees everywhere with the spec
reference once the preserved class is widened from letters/digits/
whitespace to regex word characters (letters, digits, underscore) plus
whitespace — the change the counterexample forces. -/
theorem c7_normalize_matches_spec_amended (s : UStr) :
    normalize_name s = specNormalizeNameAmended s := by
  by_cases h : s = []
  · simp [normalize_name, specNormalizeNameAmended, h]
  · simp only [normalize_name, specNormalizeNameAmended, if_neg h,
      wordClass_eq]

/-- The digits of `padNum` lie in `0x30`–`0x39`, so `+` (0x2B) never
occurs. -/
theorem plus_notin_padNum : ∀ k n, (0x2B : Nat) ∉ padNum k n := by
  intro k
  induction k with
  | zero => intro n h; simp [padNum] at h
  | succ k ih =>
    intro n h
    rw [padNum, List.mem_append] at h
    rcases h with h | h
    · exact ih _ h
    · simp at h; omega

/-- A naive (`aware = false`) datetime's ISO string carries no UTC offset
designator. -/
theorem hasUtcOffset_naive (t : PyDateTime) (h : t.aware = false) :
    hasUtcOffset (pyIsoformat t) = false := by
  have hmem : (0x2B : Nat) ∉ pyIsoformat t := by
    unfold pyIsoformat
    rw [h]
    by_cases hm : t.microsecond = 0 <;>
      simp [hm, List.mem_append, plus_notin_padNum]
  simp [hasUtcOffset, hmem]

/-- C9 amended: the assembled API `ScreeningResponse` carries
`processing_time_ms = int((t1 - t0)·1000)` (the floor of the elapsed
milliseconds) and `screening_date` equal to the screener's naive local
`datetime.now().isoformat()` — a timestamp without UTC offset designator
whenever the captured datetime is naive, which `datetime.now()` always
is. -/
theorem c9_response_fields_amended (S : Screener) (uuid : UStr)
    (now : PyDateTime) (t0 t1 : Q) (inp : ScreeningInput)
    (resp : ApiScreeningResponse)
    (hok : api_screen_individual S uuid now t0 t1 inp = .ok resp) :
    resp.processing_time_ms = Q.floor ((t1 - t0) * 1000) ∧
    resp.screening_date = pyIsoformat now ∧
    (now.aware = false → hasUtcOffset resp.screening_date = false) := by
  cases h : search S inp 10 with
  | error e =>
    simp [api_screen_individual, screen_individual, h, Except.map] at hok
  | ok ms =>
    simp only [api_screen_individual, screen_individual, h, Except.map] at hok
    cases hok
    exact ⟨rfl, rfl, fun hn => hasUtcOffset_naive now hn⟩


/-- Witness for C9 amended: a concrete request over the empty corpus with
elapsed time 1/2 s yields `processing_time_ms = 500` and a naive
screening date. -/
theorem c9_witness :
    resp9.processing_time_ms = Q.floor (((Q.mk' 1 2) - 0) * 1000) ∧
    resp9.screening_date = pyIsoformat nowNaive ∧
    (nowNaive.aware = false → hasUtcOffset resp9.screening_date = false) :=
  c9_response_fields_amended emptyScreener uuidFix nowNaive 0 (Q.mk' 1 2)
    abInput resp9 (by decide)

/-- C5 amended: validation returns the earliest failing check in source
order, with the qualification the counterexample forces: the
category-C check (check 4) runs only when `allow_unicode_names` is true;
when it is false the Latin-only format check runs instead, so a name
whose only defect is a control character fails there with
`INVALID_FORMAT`.  In particular a name with both a blocked character
and a control character always fails with `BLOCKED_CHARACTERS`. -/
theorem c5_validation_ordering_amended (cfg : ScreenerConfig)
    (inp : ScreeningInput) :
    (cfg.input_validation.name_min_length ≤ (pyStrip inp.name).length →
      inp.name.length ≤ cfg.input_validation.name_max_length →
      inp.name.any
        (fun c => cfg.input_validation.blocked_characters.contains c) = true →
      validate_screening_input cfg inp = some ⟨.BLOCKED_CHARACTERS, .name⟩) ∧
    (cfg.input_validation.name_min_length ≤ (pyStrip inp.name).length →
      inp.name.length ≤ cfg.input_validation.name_max_length →
      inp.name.any
        (fun c => cfg.input_validation.blocked_characters.contains c) = false →
      cfg.input_validation.allow_unicode_names = true →
      inp.name.any isCatC = true →
      validate_screening_input cfg inp = some ⟨.CONTROL_CHARACTER, .name⟩) ∧
    (cfg.input_validation.name_min_length ≤ (pyStrip inp.name).length →
      inp.name.length ≤ cfg.input_validation.name_max_length →
      inp.name.any
        (fun c => cfg.input_validation.blocked_characters.contains c) = false →
      cfg.input_validation.allow_unicode_names = false →
      namePatternMatch inp.name = false →
      validate_screening_input cfg inp = some ⟨.INVALID_FORMAT, .name⟩) := by
  refine ⟨fun h1 h2 h3 => ?_, fun h1 h2 h3 h4 h5 => ?_,
    fun h1 h2 h3 h4 h5 => ?_⟩
  · simp only [validate_screening_input]
    rw [if_neg (by omega), if_neg (by omega), if_pos h3]
  · simp only [validate_screening_input]
    rw [if_neg (by omega), if_neg (by omega), if_neg (by rw [h3]; exact Bool.false_ne_true),
      if_pos h4, if_pos h5]
  · simp only [validate_screening_input]
    rw [if_neg (by omega), if_neg (by omega), if_neg (by rw [h3]; exact Bool.false_ne_true),
      if_neg (by simp [h4]), if_pos (by simp [h5])]

/-- Witness for C5 amended at concrete inputs: blocked + control fails
with `BLOCKED_CHARACTERS`; a control character fails with
`CONTROL_CHARACTER` under the default (Unicode) config and with
`INVALID_FORMAT` under the Latin-only config. -/
theorem c5_witness :
    validate_screening_input defaultConfig { name := nameBlkCtl } =
      some ⟨.BLOCKED_CHARACTERS, .name⟩ ∧
    validate_screening_input defaultConfig { name := nameABCtl } =
      some ⟨.CONTROL_CHARACTER, .name⟩ ∧
    validate_screening_input cfgLatinOnly { name := nameABCtl } =
      some ⟨.INVALID_FORMAT, .name⟩ :=
  ⟨(c5_validation_ordering_amended defaultConfig { name := nameBlkCtl }).1
      (by decide) (by decide) (by decide),
   (c5_validation_ordering_amended defaultConfig
      { name := nameABCtl }).2.1
      (by decide) (by decide) (by decide) (by decide) (by decide),
   (c5_validation_ordering_amended cfgLatinOnly { name := nameABCtl }).2.2
      (by decide) (by decide) (by decide) (by decide) (by decide)⟩

/-- `sortResults` permutes its input. -/
theorem sortResults_perm (l : List MatchResult) : (sortResults l).Perm l :=
  List.perm_insertionSort _ l

/-- Every document-layer result has document score 100, overall 100, and
match layer 1. -/
theorem mem_docLayer_fields {S : Screener} {inp : ScreeningInput}
    {r : MatchResult} (h : r ∈ docLayer S inp) :
    r.confidence.document_score = 100 ∧ r.confidence.overall = 100 ∧
    r.match_layer = 1 := by
  unfold docLayer at h
  split at h
  · unfold search_by_document at h
    split at h
    · simp at h
    · rw [List.mem_filterMap] at h
      obtain ⟨e, _, hsome⟩ := h
      simp only [Option.map_eq_some'] at hsome
      obtain ⟨m, _, hr⟩ := hsome
      subst hr
      exact ⟨rfl, rfl, rfl⟩
  · simp at h

/-- Search's result when validation passes and the normalized query is
non-empty. -/
theorem search_ok_eq {S : Screener} {inp : ScreeningInput} {limit : Nat}
    (hv : validate_screening_input S.config inp = none)
    (hq : normalize_name inp.name ≠ []) :
    search S inp limit =
      .ok ((sortResults (docLayer S inp ++ nameLayer S inp)).take limit) := by
  unfold search
  rw [hv]
  simp [hq]

/-- Search's result when validation passes and the normalized query is
empty: the document-layer results, unsorted and untruncated. -/
theorem search_ok_empty_eq {S : Screener} {inp : ScreeningInput}
    {limit : Nat} (hv : validate_screening_input S.config inp = none)
    (hq : normalize_name inp.name = []) :
    search S inp limit = .ok (docLayer S inp) := by
  unfold search
  rw [hv]
  simp [hq]

/-- When every computed result fits in the limit, truncation is the
identity. -/
theorem take_sort_all {l : List MatchResult} {limit : Nat}
    (h : l.length ≤ limit) : (sortResults l).take limit = sortResults l :=
  List.take_of_length_le (by rw [(sortResults_perm l).length_eq]; exact h)

/-- Every admitted name-layer result passed the admission test. -/
theorem mem_nameLayer_admitted {S : Screener} {inp : ScreeningInput}
    {r : MatchResult} (h : r ∈ nameLayer S inp) :
    admitted (applicableThreshold S inp.name).1 r = true := by
  unfold nameLayer at h
  rw [List.mem_filterMap] at h
  obtain ⟨e, _, hb⟩ := h
  cases hc : candidateOf S inp e with
  | none => rw [hc] at hb; simp at hb
  | some r0 =>
    rw [hc] at hb
    simp only [Option.some_bind] at hb
    split at hb
    · cases hb; assumption
    · simp at hb

/-- A scored candidate that passes the admission test is in the name
layer. -/
theorem nameLayer_mem_intro {S : Screener} {inp : ScreeningInput}
    {e : Entity} {r : MatchResult} (he : e ∈ S.entities)
    (hc : candidateOf S inp e = some r)
    (ha : admitted (applicableThreshold S inp.name).1 r = true) :
    r ∈ nameLayer S inp := by
  unfold nameLayer
  rw [List.mem_filterMap]
  exact ⟨e, he, by rw [hc]; simp [ha]⟩

/-- C3 amended: membership in the output is characterized by the admission
condition, with the qualifications the counterexamples force: (i) every
returned result satisfies `overall ≥ applicable threshold ∨ document =
100`; (ii) when the computed results fit within `limit`, the output is
exactly the document-layer results plus the admitted name-layer results;
(iii) a name-stage candidate (an entity that survives the seen-id and
`layers.low_match` gates) is admitted to the name layer iff it satisfies
the admission condition. -/
theorem c3_threshold_inclusion_amended (S : Screener) (inp : ScreeningInput)
    (limit : Nat) (res : List MatchResult)
    (hv : validate_screening_input S.config inp = none)
    (hq : normalize_name inp.name ≠ [])
    (hlim : (docLayer S inp ++ nameLayer S inp).length ≤ limit)
    (hres : search S inp limit = .ok res) :
    (∀ r ∈ res, (applicableThreshold S inp.name).1 ≤ r.confidence.overall ∨
      r.confidence.document_score = 100) ∧
    (∀ r : MatchResult, r ∈ res ↔
      r ∈ docLayer S inp ∨ r ∈ nameLayer S inp) ∧
    (∀ e ∈ S.entities, ∀ r : MatchResult, candidateOf S inp e = some r →
      (r ∈ nameLayer S inp ↔
        admitted (applicableThreshold S inp.name).1 r = true)) := by
  have hres' : res = sortResults (docLayer S inp ++ nameLayer S inp) := by
    rw [search_ok_eq hv hq, take_sort_all hlim] at hres
    exact (Except.ok.injEq _ _).mp hres.symm
  subst hres'
  refine ⟨?_, ?_, ?_⟩
  · intro r hr
    have hr' := ((sortResults_perm _).mem_iff).mp hr
    rcases List.mem_append.mp hr' with hd | hn
    · exact Or.inr (mem_docLayer_fields hd).1
    · have := mem_nameLayer_admitted hn
      unfold admitted at this
      rcases Bool.or_eq_true _ _ |>.mp this with h | h
      · exact Or.inl (of_decide_eq_true h)
      · exact Or.inr (by simpa using h)
  · intro r
    rw [(sortResults_perm _).mem_iff, List.mem_append]
  · intro e _ r hc
    constructor
    · intro hn
      exact mem_nameLayer_admitted hn
    · intro ha
      exact nameLayer_mem_intro (by assumption) hc ha






/-- Witness for C3 amended: for the perfect-name candidate `w3result`
(overall 40 < threshold 85, no document), the characterization gives
membership iff admission — and admission fails, so the candidate is not
returned. -/
theorem c3_witness :
    (w3result ∈ nameLayer w3screener w3input ↔
      admitted (applicableThreshold w3screener w3input.name).1 w3result =
        true) ∧
    admitted (applicableThreshold w3screener w3input.name).1 w3result =
      false :=
  ⟨(c3_threshold_inclusion_amended w3screener w3input 10 [] (by decide)
      (by decide) (by decide) (by decide)).2.2 w3entity (by decide) w3result
      (by decide),
   by decide⟩

/-- C2 amended: document-hit dominance holds with the qualifications the
counterexample forces — the entity under the looked-up key must also pass
the layer-1 re-verification (no input `document_type`, or a stored
document under that number with the same type case-insensitively, or a
matching vessel IMO), and the computed results must fit within `limit`.
Every such entity appears in the output as a `match_layer = 1` result
with `confidence.overall = 100`, regardless of name similarity. -/
theorem c2_document_hit_dominance_amended (S : Screener)
    (inp : ScreeningInput) (limit : Nat) (e : Entity)
    (res : List MatchResult)
    (hv : validate_screening_input S.config inp = none)
    (hdoc : inp.document_number ≠ [])
    (he : e ∈ (assocFind S.document_index
      (normalize_document inp.document_number)).getD [])
    (hpass : (findMatchedDoc e (normalize_document inp.document_number)
        inp.document_type).isSome = true ∨
      (e.vesselIMO ≠ [] ∧ normalize_document e.vesselIMO =
        normalize_document inp.document_number))
    (hlim : (docLayer S inp ++ nameLayer S inp).length ≤ limit)
    (hres : search S inp limit = .ok res) :
    ∃ r ∈ res, r.entity = e ∧ r.match_layer = 1 ∧
      r.confidence.overall = 100 := by
  have hd : ∃ r ∈ docLayer S inp, r.entity = e ∧ r.match_layer = 1 ∧
      r.confidence.overall = 100 := by
    unfold docLayer
    rw [if_pos hdoc]
    unfold search_by_document
    cases hfind : assocFind S.document_index
        (normalize_document inp.document_number) with
    | none => rw [hfind] at he; simp at he
    | some ents =>
      rw [hfind] at he
      simp only [Option.getD_some] at he
      obtain ⟨m, hm⟩ : ∃ m,
          (match findMatchedDoc e (normalize_document inp.document_number)
              inp.document_type with
            | some m => some m
            | none =>
              if e.vesselIMO ≠ [] &&
                  normalize_document e.vesselIMO ==
                    normalize_document inp.document_number then
                some e.vesselIMO
              else none) = some m := by
        cases hfd : findMatchedDoc e (normalize_document inp.document_number)
            inp.document_type with
        | some m => exact ⟨m, rfl⟩
        | none =>
          rcases hpass with hl | ⟨hv1, hv2⟩
          · rw [hfd] at hl; simp at hl
          · exact ⟨e.vesselIMO, by simp [hv1, hv2]⟩
      refine ⟨{ entity := e
                confidence :=
                  { overall := 100, name_score := 100, document_score := 100,
                    dob_score := 0, nationality_score := 0 }
                flags := [.DOCUMENT_EXACT_MATCH]
                recommendation := .AUTO_ESCALATE
                match_layer := 1
                matched_name := e.name
                matched_document := some m },
              List.mem_filterMap.mpr ⟨e, he, ?_⟩, rfl, rfl, rfl⟩
      simp only [hm, Option.map_some']
  obtain ⟨r, hrdl, hre, hrl, hro⟩ := hd
  refine ⟨r, ?_, hre, hrl, hro⟩
  by_cases hq : normalize_name inp.name = []
  · rw [search_ok_empty_eq hv hq] at hres
    cases hres
    exact hrdl
  · rw [search_ok_eq hv hq, take_sort_all hlim] at hres
    cases hres
    exact ((sortResults_perm _).mem_iff).mpr (List.mem_append_left _ hrdl)

/-- Witness for C2 amended: with the matching document type `PASSPORT`,
entity `ZZZZ` (whose name scores 0 against the query) appears in the
output as a layer-1 result with overall 100. -/
theorem c2_witness :
    ∃ r ∈ (search mismatchScreener matchingTypeInput 10).toOption.getD [],
      r.entity = mismatchEntity ∧ r.match_layer = 1 ∧
      r.confidence.overall = 100 :=
  c2_document_hit_dominance_amended mismatchScreener matchingTypeInput 10
    mismatchEntity
    ((search mismatchScreener matchingTypeInput 10).toOption.getD [])
    (by decide) (by decide) (by decide) (Or.inl (by decide)) (by decide)
    (by decide)

/-!
Character-level lemmas for normalizer idempotence (claim C8).
-/

/-- Unfolding of the interval test. -/
theorem betw_iff {lo hi c : Nat} : betw lo hi c = true ↔ lo ≤ c ∧ c ≤ hi := by
  simp [betw]

/-- Arithmetic characterization of `isSpaceChar`. -/
theorem isSpaceChar_iff (c : Nat) : isSpaceChar c = true ↔
    (c = 0x20 ∨ (0x9 ≤ c ∧ c ≤ 0xD) ∨ (0x1C ≤ c ∧ c ≤ 0x1F) ∨ c = 0x85 ∨
     c = 0xA0 ∨ c = 0x1680 ∨ (0x2000 ≤ c ∧ c ≤ 0x200A) ∨ c = 0x2028 ∨
     c = 0x2029 ∨ c = 0x202F ∨ c = 0x205F ∨ c = 0x3000) := by
  simp [isSpaceChar, betw]
  omega

/-- Arithmetic characterization of `isWordChar`. -/
theorem isWordChar_iff (c : Nat) : isWordChar c = true ↔
    ((0x41 ≤ c ∧ c ≤ 0x5A) ∨ (0x61 ≤ c ∧ c ≤ 0x7A) ∨
     (0xC0 ≤ c ∧ c ≤ 0xFF ∧ c ≠ 0xD7 ∧ c ≠ 0xF7) ∨
     (0x400 ≤ c ∧ c ≤ 0x4FF) ∨ (0x620 ≤ c ∧ c ≤ 0x64A) ∨
     (0x4E00 ≤ c ∧ c ≤ 0x9FFF) ∨ (0x30 ≤ c ∧ c ≤ 0x39) ∨ c = 0x5F) := by
  simp [isWordChar, isLetterChar, isDigitChar, betw]
  omega

/-- Arithmetic characterization of `isMn`. -/
theorem isMn_iff (c : Nat) : isMn c = true ↔ 0x300 ≤ c ∧ c ≤ 0x36F := by
  simp [isMn, betw]

/-- Arithmetic characterization of `isDocSep`. -/
theorem isDocSep_iff (c : Nat) : isDocSep c = true ↔
    (isSpaceChar c = true ∨ c = 0x2D ∨ c = 0x2E ∨ c = 0x2C ∨ c = 0x2F) := by
  simp [isDocSep]
  tauto

/-- Word characters are never whitespace. -/
theorem word_not_space {c : Nat} (h : isWordChar c = true) :
    isSpaceChar c = false := by
  rw [← Bool.not_eq_true, isSpaceChar_iff]
  rw [isWordChar_iff] at h
  omega

/-- Word characters are never combining marks. -/
theorem word_not_mn {c : Nat} (h : isWordChar c = true) : isMn c = false := by
  rw [← Bool.not_eq_true, isMn_iff]
  rw [isWordChar_iff] at h
  omega

set_option maxRecDepth 4096 in
/-- Every non-mark code point emitted by a table decomposition is itself
NFD-stable (finite check over the table). -/
theorem nfdTable_stable :
    ∀ p ∈ nfdTable, ∀ d ∈ p.2, isMn d = false → nfdStable d = true := by
  decide

/-- An NFD-stable code point decomposes to itself. -/
theorem stable_nfdChar {c : Nat} (h : nfdStable c = true) :
    nfdChar c = [c] := by
  unfold nfdChar
  unfold nfdStable at h
  cases hf : nfdLookup c with
  | none => rfl
  | some l => rw [hf] at h; simp at h

/-- Every non-mark member of any decomposition is NFD-stable. -/
theorem mem_nfdChar_stable {c d : Nat} (hd : d ∈ nfdChar c)
    (hm : isMn d = false) : nfdStable d = true := by
  unfold nfdChar nfdLookup at hd
  cases hf : nfdTable.find? (fun p => p.1 == c) with
  | none =>
    rw [hf] at hd
    simp only [Option.map_none', Option.getD_none, List.mem_singleton] at hd
    subst hd
    unfold nfdStable nfdLookup
    rw [hf]
    rfl
  | some p =>
    rw [hf] at hd
    simp only [Option.map_some', Option.getD_some] at hd
    exact nfdTable_stable p (List.mem_of_find?_eq_some hf) d hd hm

set_option maxRecDepth 4096 in
/-- Uppercase of an ASCII lowercase letter is NFD-stable. -/
theorem stable_upper_az : ∀ x < 0x7B, 0x61 ≤ x →
    nfdStable (x - 0x20) = true := by decide

set_option maxRecDepth 4096 in
/-- Uppercase of an NFD-stable Latin-1 lowercase letter is NFD-stable. -/
theorem stable_upper_latin1 : ∀ x < 0xFF, 0xE0 ≤ x → nfdStable x = true →
    nfdStable (x - 0x20) = true := by decide

set_option maxRecDepth 16384 in
/-- Uppercase of a Cyrillic а–я letter is NFD-stable. -/
theorem stable_upper_cyr : ∀ x < 0x450, 0x430 ≤ x →
    nfdStable (x - 0x20) = true := by decide

/-- `toUpperChar` on the ASCII lowercase range. -/
theorem toUpperChar_of_az {c : Nat} (h : 0x61 ≤ c ∧ c ≤ 0x7A) :
    toUpperChar c = c - 0x20 := by
  unfold toUpperChar
  rw [if_pos (by simp [betw]; omega)]

/-- `toUpperChar` on the Latin-1 lowercase range. -/
theorem toUpperChar_of_latin1 {c : Nat}
    (h : 0xE0 ≤ c ∧ c ≤ 0xFE ∧ c ≠ 0xF7) : toUpperChar c = c - 0x20 := by
  unfold toUpperChar
  rw [if_neg (by simp [betw]; omega), if_pos (by simp [betw]; omega)]

/-- `toUpperChar` on the Cyrillic lowercase range. -/
theorem toUpperChar_of_cyr {c : Nat} (h : 0x430 ≤ c ∧ c ≤ 0x44F) :
    toUpperChar c = c - 0x20 := by
  unfold toUpperChar
  rw [if_neg (by simp [betw]; omega), if_neg (by simp [betw]; omega),
    if_pos (by simp [betw]; omega)]

/-- `toUpperChar` is the identity outside the three lowercase ranges. -/
theorem toUpperChar_id {c : Nat} (h1 : ¬(0x61 ≤ c ∧ c ≤ 0x7A))
    (h2 : ¬(0xE0 ≤ c ∧ c ≤ 0xFE ∧ c ≠ 0xF7))
    (h3 : ¬(0x430 ≤ c ∧ c ≤ 0x44F)) : toUpperChar c = c := by
  unfold toUpperChar
  rw [if_neg (by simp [betw]; omega), if_neg (by simp [betw]; omega),
    if_neg (by simp [betw]; omega)]

/-- `toUpperChar` is idempotent. -/
theorem toUpperChar_idem (c : Nat) :
    toUpperChar (toUpperChar c) = toUpperChar c := by
  by_cases h1 : 0x61 ≤ c ∧ c ≤ 0x7A
  · rw [toUpperChar_of_az h1]
    exact toUpperChar_id (by omega) (by omega) (by omega)
  · by_cases h2 : 0xE0 ≤ c ∧ c ≤ 0xFE ∧ c ≠ 0xF7
    · rw [toUpperChar_of_latin1 h2]
      exact toUpperChar_id (by omega) (by omega) (by omega)
    · by_cases h3 : 0x430 ≤ c ∧ c ≤ 0x44F
      · rw [toUpperChar_of_cyr h3]
        exact toUpperChar_id (by omega) (by omega) (by omega)
      · rw [toUpperChar_id h1 h2 h3, toUpperChar_id h1 h2 h3]



/-- The uppercase image of a stable word character is a normalized output
character. -/
theorem upper_good {d : Nat} (hw : isWordChar d = true)
    (hs : nfdStable d = true) : outChar (toUpperChar d) := by
  rw [isWordChar_iff] at hw
  by_cases h1 : 0x61 ≤ d ∧ d ≤ 0x7A
  · rw [toUpperChar_of_az h1]
    have hw' : isWordChar (d - 0x20) = true := by rw [isWordChar_iff]; omega
    exact ⟨hw', stable_upper_az d (by omega) (by omega),
      toUpperChar_id (by omega) (by omega) (by omega), word_not_space hw'⟩
  · by_cases h2 : 0xE0 ≤ d ∧ d ≤ 0xFE ∧ d ≠ 0xF7
    · rw [toUpperChar_of_latin1 h2]
      have hw' : isWordChar (d - 0x20) = true := by rw [isWordChar_iff]; omega
      exact ⟨hw', stable_upper_latin1 d (by omega) (by omega) hs,
        toUpperChar_id (by omega) (by omega) (by omega), word_not_space hw'⟩
    · by_cases h3 : 0x430 ≤ d ∧ d ≤ 0x44F
      · rw [toUpperChar_of_cyr h3]
        have hw' : isWordChar (d - 0x20) = true := by
          rw [isWordChar_iff]; omega
        exact ⟨hw', stable_upper_cyr d (by omega) (by omega),
          toUpperChar_id (by omega) (by omega) (by omega), word_not_space hw'⟩
      · rw [toUpperChar_id h1 h2 h3]
        have hw' : isWordChar d = true := by rw [isWordChar_iff]; exact hw
        exact ⟨hw', hs, toUpperChar_id h1 h2 h3, word_not_space hw'⟩

/-- `toUpperChar` never maps a non-whitespace character to whitespace. -/
theorem toUpper_space {a : Nat} (h : isSpaceChar (toUpperChar a) = true) :
    isSpaceChar a = true := by
  by_cases h1 : 0x61 ≤ a ∧ a ≤ 0x7A
  · rw [toUpperChar_of_az h1, isSpaceChar_iff] at h; omega
  · by_cases h2 : 0xE0 ≤ a ∧ a ≤ 0xFE ∧ a ≠ 0xF7
    · rw [toUpperChar_of_latin1 h2, isSpaceChar_iff] at h; omega
    · by_cases h3 : 0x430 ≤ a ∧ a ≤ 0x44F
      · rw [toUpperChar_of_cyr h3, isSpaceChar_iff] at h; omega
      · rwa [toUpperChar_id h1 h2 h3] at h

/-- Stage 1: after NFD and mark removal, every character is NFD-stable. -/
theorem s1_props (s : UStr) :
    ∀ d ∈ (nfdStr s).filter (fun c => !(isMn c)), nfdStable d = true := by
  intro d hd
  rw [List.mem_filter] at hd
  obtain ⟨hmem, hnm⟩ := hd
  unfold nfdStr at hmem
  rw [List.mem_flatMap] at hmem
  obtain ⟨c, _, hc⟩ := hmem
  exact mem_nfdChar_stable hc (by simpa using hnm)

/-- Stage 2: after the `[^\w\s]` substitution, every character is
whitespace or a stable word character. -/
theorem s2_props (l : UStr) (hl : ∀ d ∈ l, nfdStable d = true) :
    ∀ d ∈ l.map (fun c => if isWordChar c || isSpaceChar c then c else 0x20),
      isSpaceChar d = true ∨ (isWordChar d = true ∧ nfdStable d = true) := by
  intro d hd
  rw [List.mem_map] at hd
  obtain ⟨c, hc, hfc⟩ := hd
  by_cases hcond : (isWordChar c || isSpaceChar c) = true
  · rw [if_pos hcond] at hfc
    subst hfc
    rcases Bool.or_eq_true _ _ |>.mp hcond with hw | hsp
    · exact Or.inr ⟨hw, hl c hc⟩
    · exact Or.inl hsp
  · rw [if_neg hcond] at hfc
    subst hfc
    exact Or.inl (by decide)

/-- One-step unfolding of `collapseAux` on a cons cell. -/
theorem collapseAux_cons (b : Bool) (c : Nat) (rest : UStr) :
    collapseAux b (c :: rest) =
      if isSpaceChar c = true then
        (if b = true then collapseAux true rest
         else 0x20 :: collapseAux true rest)
      else c :: collapseAux false rest := rfl

/-- Stage 3: `collapseAux` yields characters that are the space 0x20 or
stable non-whitespace word characters, with no two adjacent whitespace
characters, and (after a whitespace run) a non-whitespace head. -/
theorem collapseAux_props : ∀ (l : UStr) (b : Bool),
    (∀ d ∈ l,
      isSpaceChar d = true ∨ (isWordChar d = true ∧ nfdStable d = true)) →
    ((∀ d ∈ collapseAux b l, d = 0x20 ∨
        (isWordChar d = true ∧ nfdStable d = true ∧
          isSpaceChar d = false)) ∧
     List.Chain' noTwoSpaces (collapseAux b l) ∧
     (b = true → ∀ d, (collapseAux b l).head? = some d →
        isSpaceChar d = false)) := by
  intro l
  induction l with
  | nil =>
    intro b _
    refine ⟨by simp [collapseAux], by simp [collapseAux], ?_⟩
    intro _ d hd
    simp [collapseAux] at hd
  | cons c rest ih =>
    intro b hl
    have hrest : ∀ d ∈ rest,
        isSpaceChar d = true ∨ (isWordChar d = true ∧ nfdStable d = true) :=
      fun d hd => hl d (List.mem_cons_of_mem _ hd)
    have hc := hl c (List.mem_cons_self _ _)
    by_cases hsp : isSpaceChar c = true
    · cases b with
      | true =>
        have hred : collapseAux true (c :: rest) = collapseAux true rest := by
          rw [collapseAux_cons, if_pos hsp, if_pos rfl]
        rw [hred]
        exact ih true hrest
      | false =>
        have hred : collapseAux false (c :: rest) =
            0x20 :: collapseAux true rest := by
          rw [collapseAux_cons, if_pos hsp, if_neg (by simp)]
        rw [hred]
        obtain ⟨ih1, ih2, ih3⟩ := ih true hrest
        refine ⟨?_, ?_, ?_⟩
        · intro d hd
          rcases List.mem_cons.mp hd with rfl | hd
          · exact Or.inl rfl
          · exact ih1 d hd
        · rw [List.chain'_cons']
          refine ⟨?_, ih2⟩
          intro y hy
          intro hpair
          exact absurd hpair.2 (by simp [ih3 rfl y hy])
        · intro hb
          cases hb
    · have hmid : isWordChar c = true ∧ nfdStable c = true := by
        rcases hc with h | h
        · exact absurd h hsp
        · exact h
      have hcf : isSpaceChar c = false := Bool.eq_false_iff.mpr hsp
      have hred : collapseAux b (c :: rest) = c :: collapseAux false rest := by
        rw [collapseAux_cons, if_neg hsp]
      rw [hred]
      obtain ⟨ih1, ih2, _⟩ := ih false hrest
      refine ⟨?_, ?_, ?_⟩
      · intro d hd
        rcases List.mem_cons.mp hd with rfl | hd
        · exact Or.inr ⟨hmid.1, hmid.2, hcf⟩
        · exact ih1 d hd
      · rw [List.chain'_cons']
        refine ⟨?_, ih2⟩
        intro y _ hpair
        exact hsp hpair.1
      · intro _ d hd
        rw [List.head?_cons, Option.some.injEq] at hd
        subst hd
        exact hcf

/-- Stage 4: uppercasing preserves the collapse-stage invariants. -/
theorem upperStage_props (l : UStr)
    (h1 : ∀ d ∈ l, d = 0x20 ∨
      (isWordChar d = true ∧ nfdStable d = true ∧ isSpaceChar d = false))
    (h2 : List.Chain' noTwoSpaces l) :
    (∀ d ∈ l.map toUpperChar, d = 0x20 ∨ outChar d) ∧
    List.Chain' noTwoSpaces (l.map toUpperChar) := by
  constructor
  · intro d hd
    rw [List.mem_map] at hd
    obtain ⟨c, hc, rfl⟩ := hd
    rcases h1 c hc with rfl | ⟨hw, hs, _⟩
    · exact Or.inl (by decide)
    · exact Or.inr (upper_good hw hs)
  · rw [List.chain'_map]
    refine h2.imp ?_
    intro a b hab hpair
    exact hab ⟨toUpper_space hpair.1, toUpper_space hpair.2⟩

/-- The head of `dropWhile p` never satisfies `p`. -/
theorem head_dropWhile_not (p : Nat → Bool) :
    ∀ (l : UStr) (d : Nat), (List.dropWhile p l).head? = some d →
      p d = false := by
  intro l
  induction l with
  | nil => simp [List.dropWhile]
  | cons c rest ih =>
    intro d hd
    rw [List.dropWhile_cons] at hd
    split at hd
    · exact ih d hd
    · rw [List.head?_cons, Option.some.injEq] at hd
      subst hd
      exact Bool.eq_false_iff.mpr (by assumption)

/-- Members of `pyStrip l` are members of `l`. -/
theorem pyStrip_subset {l : UStr} {d : Nat} (hd : d ∈ pyStrip l) :
    d ∈ l := by
  unfold pyStrip at hd
  rw [List.mem_reverse] at hd
  have h1 := ((List.dropWhile_sublist _).mem hd)
  rw [List.mem_reverse] at h1
  exact (List.dropWhile_sublist _).mem h1

/-- A chain over a symmetric relation survives `pyStrip`. -/
theorem pyStrip_chain {R : Nat → Nat → Prop}
    (hsymm : ∀ a b, R a b → R b a) {l : UStr}
    (h : List.Chain' R l) : List.Chain' R (pyStrip l) := by
  have chainDrop : ∀ (m : UStr), List.Chain' R m →
      List.Chain' R (m.dropWhile isSpaceChar) := by
    intro m hm
    obtain ⟨t, ht⟩ := List.dropWhile_suffix (l := m) isSpaceChar
    rw [← ht] at hm
    exact (List.chain'_append.mp hm).2.1
  have hrev : ∀ (m : UStr), List.Chain' R m → List.Chain' R m.reverse := by
    intro m hm
    rw [List.chain'_reverse]
    exact hm.imp (fun a b hab => hsymm a b hab)
  exact hrev _ (chainDrop _ (hrev _ (chainDrop _ h)))

/-- `pyStrip` output never starts with whitespace. -/
theorem pyStrip_last {l : UStr} (d : Nat)
    (hd : (pyStrip l).getLast? = some d) : isSpaceChar d = false := by
  unfold pyStrip at hd
  rw [List.getLast?_reverse] at hd
  exact head_dropWhile_not _ _ _ hd

/-- `pyStrip` output never ends with whitespace. -/
theorem pyStrip_head {l : UStr} (d : Nat)
    (hd : (pyStrip l).head? = some d) : isSpaceChar d = false := by
  unfold pyStrip at hd
  rw [List.head?_reverse] at hd
  rcases hm : List.dropWhile isSpaceChar
      ((List.dropWhile isSpaceChar l).reverse) with _ | ⟨x, xs⟩
  · rw [hm] at hd
    simp at hd
  · rw [hm] at hd
    obtain ⟨t, ht⟩ :=
      List.dropWhile_suffix
        (l := (List.dropWhile isSpaceChar l).reverse) isSpaceChar
    rw [hm] at ht
    have hlast : ((List.dropWhile isSpaceChar l).reverse).getLast? =
        some d := by
      rw [← ht, List.getLast?_append]
      rw [hd]
      rfl
    rw [List.getLast?_reverse] at hlast
    exact head_dropWhile_not _ _ _ hlast

/-- A string of NFD-stable characters is an NFD fixed point. -/
theorem nfdStr_fix : ∀ (l : UStr), (∀ d ∈ l, nfdChar d = [d]) →
    nfdStr l = l := by
  intro l
  induction l with
  | nil => intro _; rfl
  | cons c rest ih =>
    intro h
    unfold nfdStr
    rw [List.flatMap_cons, h c (List.mem_cons_self _ _)]
    have := ih (fun d hd => h d (List.mem_cons_of_mem _ hd))
    unfold nfdStr at this
    rw [this]
    rfl

/-- `collapseAux true` equals `collapseAux false` when the head is not
whitespace. -/
theorem collapseAux_true_eq (l : UStr)
    (hl : ∀ d, l.head? = some d → isSpaceChar d = false) :
    collapseAux true l = collapseAux false l := by
  cases l with
  | nil => rfl
  | cons c rest =>
    have hc : isSpaceChar c = false := hl c (by rw [List.head?_cons])
    rw [collapseAux_cons, collapseAux_cons, if_neg (by simp [hc]),
      if_neg (by simp [hc])]

/-- A string with no adjacent whitespace whose only whitespace character
is 0x20 is a `collapseSpaces` fixed point. -/
theorem collapse_fix : ∀ (l : UStr), List.Chain' noTwoSpaces l →
    (∀ d ∈ l, isSpaceChar d = true → d = 0x20) →
    collapseAux false l = l := by
  intro l
  induction l with
  | nil => intro _ _; rfl
  | cons c rest ih =>
    intro hch hsp
    have hch' := (List.chain'_cons'.mp hch).2
    have hrel := (List.chain'_cons'.mp hch).1
    have hsprest : ∀ d ∈ rest, isSpaceChar d = true → d = 0x20 :=
      fun d hd => hsp d (List.mem_cons_of_mem _ hd)
    by_cases hc : isSpaceChar c = true
    · have hc20 : c = 0x20 := hsp c (List.mem_cons_self _ _) hc
      rw [collapseAux_cons, if_pos hc, if_neg (by simp)]
      have hhead : ∀ d, rest.head? = some d → isSpaceChar d = false := by
        intro d hd
        have := hrel d hd
        unfold noTwoSpaces at this
        rcases hx : isSpaceChar d with _ | _
        · rfl
        · exact absurd ⟨hc, hx⟩ this
      rw [collapseAux_true_eq rest hhead, ih hch' hsprest, hc20]
    · rw [collapseAux_cons, if_neg hc, ih hch' hsprest]

/-- A string whose ends are not whitespace is a `pyStrip` fixed point. -/
theorem strip_fix {l : UStr}
    (hh : ∀ d, l.head? = some d → isSpaceChar d = false)
    (hl : ∀ d, l.getLast? = some d → isSpaceChar d = false) :
    pyStrip l = l := by
  have dropself : ∀ (m : UStr),
      (∀ d, m.head? = some d → isSpaceChar d = false) →
      m.dropWhile isSpaceChar = m := by
    intro m hm
    cases m with
    | nil => rfl
    | cons c rest =>
      rw [List.dropWhile_cons,
        if_neg (by simp [hm c (by rw [List.head?_cons])])]
  unfold pyStrip
  rw [dropself l hh,
    dropself l.reverse (by
      intro d hd
      rw [List.head?_reverse] at hd
      exact hl d hd),
    List.reverse_reverse]

/-- C8: both normalizers are idempotent.  The normalized-name output
consists of NFD-stable, uppercase-fixed word characters separated by
single spaces with no leading or trailing whitespace, so a second pass
changes nothing; the normalized document number consists of
uppercase-fixed non-separator characters. -/
theorem c8_normalizers_idempotent (s : UStr) :
    normalize_name (normalize_name s) = normalize_name s ∧
    normalize_document (normalize_document s) = normalize_document s := by
  constructor
  · -- the shape of the output of normalize_name
    have hshape :
        (∀ d ∈ normalize_name s, d = 0x20 ∨ outChar d) ∧
        List.Chain' noTwoSpaces (normalize_name s) ∧
        (∀ d, (normalize_name s).head? = some d →
          isSpaceChar d = false) ∧
        (∀ d, (normalize_name s).getLast? = some d →
          isSpaceChar d = false) := by
      unfold normalize_name
      by_cases hs : s = []
      · rw [if_pos hs]
        exact ⟨by simp, by simp, by simp, by simp⟩
      · rw [if_neg hs]
        have hB := s2_props _ (s1_props s)
        have hC := collapseAux_props _ false hB
        have hD := upperStage_props _ hC.1 hC.2.1
        refine ⟨fun d hd => hD.1 d (pyStrip_subset hd), ?_,
          fun d => pyStrip_head d, fun d => pyStrip_last d⟩
        refine pyStrip_chain ?_ hD.2
        intro a b hab hpair
        exact hab ⟨hpair.2, hpair.1⟩
    obtain ⟨hch, hc2, hhd, hlst⟩ := hshape
    generalize htt : normalize_name s = t at hch hc2 hhd hlst ⊢
    by_cases hout : t = []
    · rw [hout]
      rfl
    · unfold normalize_name
      rw [if_neg hout]
      have h1 : nfdStr t = t := by
        refine nfdStr_fix _ (fun d hd => ?_)
        rcases hch d hd with rfl | ⟨_, hstab, _, _⟩
        · exact stable_nfdChar (by decide)
        · exact stable_nfdChar hstab
      rw [h1]
      have h2 : t.filter (fun c => !(isMn c)) = t := by
        refine List.filter_eq_self.mpr (fun d hd => ?_)
        rcases hch d hd with rfl | ⟨hw, _, _, _⟩
        · decide
        · simp [word_not_mn hw]
      rw [h2]
      have h3 : t.map
          (fun c => if isWordChar c || isSpaceChar c then c else 0x20) =
          t := by
        have := List.map_congr_left (l := t)
          (f := fun c => if isWordChar c || isSpaceChar c then c else 0x20)
          (g := id) (fun d hd => by
            rcases hch d hd with rfl | ⟨hw, _, _, _⟩
            · decide
            · simp [hw])
        rw [this, List.map_id]
      rw [h3]
      have h4 : collapseSpaces t = t := by
        unfold collapseSpaces
        refine collapse_fix _ hc2 (fun d hd hds => ?_)
        rcases hch d hd with rfl | ⟨_, _, _, hns⟩
        · rfl
        · rw [hds] at hns
          cases hns
      rw [h4]
      have h5 : t.map toUpperChar = t := by
        have := List.map_congr_left (l := t)
          (f := toUpperChar) (g := id) (fun d hd => by
            rcases hch d hd with rfl | ⟨_, _, hup, _⟩
            · decide
            · exact hup)
        rw [this, List.map_id]
      rw [h5]
      exact strip_fix hhd hlst
  · -- document normalizer
    by_cases hs : s = []
    · subst hs
      rfl
    · have hinner : normalize_document s =
          (s.filter (fun c => !(isDocSep c))).map toUpperChar := by
        unfold normalize_document
        rw [if_neg hs]
      by_cases ht : normalize_document s = []
      · rw [ht]
        rfl
      · rw [hinner] at ht ⊢
        conv_lhs => rw [normalize_document]
        rw [if_neg ht]
        have hkeep : ((s.filter (fun c => !(isDocSep c))).map
            toUpperChar).filter (fun c => !(isDocSep c)) =
            (s.filter (fun c => !(isDocSep c))).map toUpperChar := by
          refine List.filter_eq_self.mpr (fun d hd => ?_)
          rw [List.mem_map] at hd
          obtain ⟨c, hc, rfl⟩ := hd
          rw [List.mem_filter] at hc
          have hcs : isDocSep c = false := by simpa using hc.2
          have : isDocSep (toUpperChar c) = false := by
            by_cases h1 : 0x61 ≤ c ∧ c ≤ 0x7A
            · rw [toUpperChar_of_az h1, ← Bool.not_eq_true, isDocSep_iff,
                isSpaceChar_iff]
              omega
            · by_cases h2 : 0xE0 ≤ c ∧ c ≤ 0xFE ∧ c ≠ 0xF7
              · rw [toUpperChar_of_latin1 h2, ← Bool.not_eq_true,
                  isDocSep_iff, isSpaceChar_iff]
                omega
              · by_cases h3 : 0x430 ≤ c ∧ c ≤ 0x44F
                · rw [toUpperChar_of_cyr h3, ← Bool.not_eq_true,
                    isDocSep_iff, isSpaceChar_iff]
                  omega
                · rwa [toUpperChar_id h1 h2 h3]
          simp [this]
        rw [hkeep, List.map_map]
        exact List.map_congr_left (fun d _ => toUpperChar_idem d)
